import Mathlib

/-!
Shallow embedding of the `desec-client` crate (`src/lib.rs`), a typed client
for the deSEC DNS REST API, together with proofs about the claims of its
specification.

The embedding covers:
* the JSON data model used by `serde_json` (`Json`), a JSON text parser
  modelling `serde_json::from_str` on the payload shapes this crate uses
  (objects, arrays, strings with escapes, non-negative integer numerals,
  booleans, null), and serde-derive style encoders/decoders for the crate's
  typed records (`AccountInformation`, `Domain`, `DNSSECKeyInfo`,
  `ResourceRecordSet`) including `#[serde(skip_serializing_if = "Option::is_none")]`
  and the `flags`/`type` renames;
* the response-dispatch logic of every public method of `DeSecClient`
  (the `match self.get(...).await { ... }` blocks), over an abstract
  `Response` (status plus body text) and an abstract transport error;
* the reqwest collaborator behaviour the code relies on, modelled from the
  reqwest documentation: `StatusCode::is_client_error` (400..=499),
  `StatusCode::is_server_error` (500..=599), `Response::error_for_status`
  (yields an error exactly for 400..=599), and `http::HeaderValue::from_str`
  validity (every byte `b` satisfies `b >= 32 && b != 127 || b == 9`);
* request building: the hand-rolled `create_domain` body and the
  URL/path concatenation of the rrset endpoints.

Machine integers of the source (`u16`, `u64`) are modelled as `Nat` together
with explicit range bounds where serde would enforce them on decode.
Rust panics (`unwrap()` on `None`/`Err`) are modelled as an explicit
`panicked` outcome, never as a Lean error.
-/

/-- JSON values, the model of `serde_json::Value`.  Numbers are restricted to
non-negative integer numerals, which are the only numerals appearing in the
payload shapes of this crate (`u16`/`u64` fields). -/
inductive Json where
  | null : Json
  | bool : Bool → Json
  | num : Nat → Json
  | str : String → Json
  | arr : List Json → Json
  | obj : List (String × Json) → Json

/-- First-match lookup of a key in a JSON object's field list, the behaviour
of `serde_json` object field access during struct decoding. -/
def jlookup : List (String × Json) → String → Option Json
  | [], _ => none
  | (k, v) :: rest, key => if k == key then some v else jlookup rest key

/-- One optional struct field under
`#[serde(skip_serializing_if = "Option::is_none")]`: serialized as a single
key/value pair when present and as nothing at all when absent. -/
def optField (k : String) (f : α → Json) : Option α → List (String × Json)
  | none => []
  | some a => [(k, f a)]

/-- `AccountInformation` (lib.rs lines 23-30); all fields are required. -/
structure AccountInformation where
  created : String
  email : String
  id : String
  limit_domains : Nat
  outreach_preference : Bool
deriving DecidableEq, Repr

/-- `DNSSECKeyInfo` (lib.rs lines 52-65).  `keyflags` is `Option<u16>` in the
source (serde-renamed to `flags`); it is a `Nat` here, bounded by `2 ^ 16`
in `DNSSECKeyInfo.WF`. -/
structure DNSSECKeyInfo where
  dnskey : Option String
  ds : Option (List String)
  keyflags : Option Nat
  keytype : Option String
  managed : Option Bool
deriving DecidableEq, Repr

/-- `Domain` (lib.rs lines 32-48).  `minimum_ttl` is `Option<u16>` in the
source, a bounded `Nat` here. -/
structure Domain where
  created : Option String
  keys : Option (List DNSSECKeyInfo)
  minimum_ttl : Option Nat
  name : Option String
  published : Option String
  touched : Option String
  zonefile : Option String
deriving DecidableEq, Repr

/-- `ResourceRecordSet` (lib.rs lines 67-86).  `rrset_type` is serde-renamed
to `type`; `ttl` is `Option<u64>` in the source, a bounded `Nat` here. -/
structure ResourceRecordSet where
  created : Option String
  domain : Option String
  subname : Option String
  name : Option String
  rrset_type : Option String
  records : Option (List String)
  ttl : Option Nat
  touched : Option String
deriving DecidableEq, Repr

/-- Range side condition that the Rust type enforces by construction: the
`keyflags` field is a `u16`. -/
def DNSSECKeyInfo.wf (k : DNSSECKeyInfo) : Bool :=
  match k.keyflags with
  | none => true
  | some n => n < 2 ^ 16

/-- Range side conditions that the Rust types enforce by construction:
`minimum_ttl` is a `u16` and the nested keys are well formed. -/
def Domain.wf (d : Domain) : Bool :=
  (match d.minimum_ttl with
   | none => true
   | some n => n < 2 ^ 16) &&
  (match d.keys with
   | none => true
   | some ks => ks.all DNSSECKeyInfo.wf)

/-- Range side condition that the Rust type enforces by construction: the
`ttl` field is a `u64`. -/
def ResourceRecordSet.wf (r : ResourceRecordSet) : Bool :=
  match r.ttl with
  | none => true
  | some n => n < 2 ^ 64

/-- The serialized field list of `DNSSECKeyInfo`: fields in declaration
order, absent options skipped, `keyflags` renamed to `flags`. -/
def DNSSECKeyInfo.fields (k : DNSSECKeyInfo) : List (String × Json) :=
  optField "dnskey" .str k.dnskey ++
    (optField "ds" (fun l => .arr (l.map .str)) k.ds ++
      (optField "flags" .num k.keyflags ++
        (optField "keytype" .str k.keytype ++
          optField "managed" .bool k.managed)))

/-- serde-derive serialization of `DNSSECKeyInfo`. -/
def DNSSECKeyInfo.toJson (k : DNSSECKeyInfo) : Json :=
  .obj k.fields

/-- The serialized field list of `Domain`: fields in declaration order,
absent options skipped. -/
def Domain.fields (d : Domain) : List (String × Json) :=
  optField "created" .str d.created ++
    (optField "keys" (fun ks => .arr (ks.map DNSSECKeyInfo.toJson)) d.keys ++
      (optField "minimum_ttl" .num d.minimum_ttl ++
        (optField "name" .str d.name ++
          (optField "published" .str d.published ++
            (optField "touched" .str d.touched ++
              optField "zonefile" .str d.zonefile)))))

/-- serde-derive serialization of `Domain`. -/
def Domain.toJson (d : Domain) : Json :=
  .obj d.fields

/-- The serialized field list of `ResourceRecordSet`: fields in declaration
order, absent options skipped, `rrset_type` renamed to `type`. -/
def ResourceRecordSet.fields (r : ResourceRecordSet) : List (String × Json) :=
  optField "created" .str r.created ++
    (optField "domain" .str r.domain ++
      (optField "subname" .str r.subname ++
        (optField "name" .str r.name ++
          (optField "type" .str r.rrset_type ++
            (optField "records" (fun l => .arr (l.map .str)) r.records ++
              (optField "ttl" .num r.ttl ++
                optField "touched" .str r.touched))))))

/-- serde-derive serialization of `ResourceRecordSet`. -/
def ResourceRecordSet.toJson (r : ResourceRecordSet) : Json :=
  .obj r.fields

/-- Element-wise decoding of a JSON sequence, short-circuiting on the first
failure, as serde does for `Vec<T>`. -/
def exMapM (f : α → Except String β) : List α → Except String (List β)
  | [] => .ok []
  | a :: as =>
    match f a with
    | .error m => .error m
    | .ok b =>
      match exMapM f as with
      | .error m => .error m
      | .ok bs => .ok (b :: bs)

/-- Decode an optional string field: missing key or `null` gives `none`,
a string gives `some`, anything else is a serde type error. -/
def getOptStr (fs : List (String × Json)) (k : String) : Except String (Option String) :=
  match jlookup fs k with
  | none => .ok none
  | some .null => .ok none
  | some (.str s) => .ok (some s)
  | some _ => .error ("invalid type for field " ++ k)

/-- Decode an optional unsigned-integer field with the range bound of the
Rust integer type, as serde enforces on `u16`/`u64`. -/
def getOptNat (bound : Nat) (fs : List (String × Json)) (k : String) : Except String (Option Nat) :=
  match jlookup fs k with
  | none => .ok none
  | some .null => .ok none
  | some (.num n) => if n < bound then .ok (some n) else .error ("out of range: " ++ k)
  | some _ => .error ("invalid type for field " ++ k)

/-- Decode an optional boolean field. -/
def getOptBool (fs : List (String × Json)) (k : String) : Except String (Option Bool) :=
  match jlookup fs k with
  | none => .ok none
  | some .null => .ok none
  | some (.bool b) => .ok (some b)
  | some _ => .error ("invalid type for field " ++ k)

/-- Decode one JSON string. -/
def asStrE : Json → Except String String
  | .str s => .ok s
  | _ => .error "invalid type: expected a string"

/-- Decode an optional `Vec<String>` field. -/
def getOptStrList (fs : List (String × Json)) (k : String) : Except String (Option (List String)) :=
  match jlookup fs k with
  | none => .ok none
  | some .null => .ok none
  | some (.arr xs) =>
    match exMapM asStrE xs with
    | .ok l => .ok (some l)
    | .error m => .error m
  | some _ => .error ("invalid type for field " ++ k)

/-- serde-derive deserialization of `DNSSECKeyInfo` (all fields optional,
`flags` rename). -/
def DNSSECKeyInfo.fromJson (j : Json) : Except String DNSSECKeyInfo :=
  match j with
  | .obj fs =>
    match getOptStr fs "dnskey", getOptStrList fs "ds", getOptNat (2 ^ 16) fs "flags",
          getOptStr fs "keytype", getOptBool fs "managed" with
    | .ok dnskey, .ok ds, .ok keyflags, .ok keytype, .ok managed =>
      .ok ⟨dnskey, ds, keyflags, keytype, managed⟩
    | _, _, _, _, _ => .error "invalid DNSSECKeyInfo"
  | _ => .error "invalid type: expected DNSSECKeyInfo object"

/-- Decode an optional `Vec<DNSSECKeyInfo>` field. -/
def getOptKeyList (fs : List (String × Json)) (k : String) :
    Except String (Option (List DNSSECKeyInfo)) :=
  match jlookup fs k with
  | none => .ok none
  | some .null => .ok none
  | some (.arr xs) =>
    match exMapM DNSSECKeyInfo.fromJson xs with
    | .ok l => .ok (some l)
    | .error m => .error m
  | some _ => .error ("invalid type for field " ++ k)

/-- serde-derive deserialization of `Domain` (all fields optional). -/
def Domain.fromJson (j : Json) : Except String Domain :=
  match j with
  | .obj fs =>
    match getOptStr fs "created", getOptKeyList fs "keys", getOptNat (2 ^ 16) fs "minimum_ttl",
          getOptStr fs "name", getOptStr fs "published", getOptStr fs "touched",
          getOptStr fs "zonefile" with
    | .ok created, .ok keys, .ok minimum_ttl, .ok name, .ok published, .ok touched, .ok zonefile =>
      .ok ⟨created, keys, minimum_ttl, name, published, touched, zonefile⟩
    | _, _, _, _, _, _, _ => .error "invalid Domain"
  | _ => .error "invalid type: expected Domain object"

/-- serde-derive deserialization of `ResourceRecordSet` (all fields optional,
`type` rename). -/
def ResourceRecordSet.fromJson (j : Json) : Except String ResourceRecordSet :=
  match j with
  | .obj fs =>
    match getOptStr fs "created", getOptStr fs "domain", getOptStr fs "subname",
          getOptStr fs "name", getOptStr fs "type", getOptStrList fs "records",
          getOptNat (2 ^ 64) fs "ttl", getOptStr fs "touched" with
    | .ok created, .ok domain, .ok subname, .ok name, .ok rrset_type, .ok records,
      .ok ttl, .ok touched =>
      .ok ⟨created, domain, subname, name, rrset_type, records, ttl, touched⟩
    | _, _, _, _, _, _, _, _ => .error "invalid ResourceRecordSet"
  | _ => .error "invalid type: expected ResourceRecordSet object"

/-- Decode a required string field of `AccountInformation`. -/
def getReqStr (fs : List (String × Json)) (k : String) : Except String String :=
  match jlookup fs k with
  | some (.str s) => .ok s
  | some _ => .error ("invalid type for field " ++ k)
  | none => .error ("missing field " ++ k)

/-- Decode a required unsigned-integer field. -/
def getReqNat (bound : Nat) (fs : List (String × Json)) (k : String) : Except String Nat :=
  match jlookup fs k with
  | some (.num n) => if n < bound then .ok n else .error ("out of range: " ++ k)
  | some _ => .error ("invalid type for field " ++ k)
  | none => .error ("missing field " ++ k)

/-- Decode a required boolean field. -/
def getReqBool (fs : List (String × Json)) (k : String) : Except String Bool :=
  match jlookup fs k with
  | some (.bool b) => .ok b
  | some _ => .error ("invalid type for field " ++ k)
  | none => .error ("missing field " ++ k)

/-- serde-derive deserialization of `AccountInformation` (all fields
required, `limit_domains` is `u64`). -/
def AccountInformation.fromJson (j : Json) : Except String AccountInformation :=
  match j with
  | .obj fs =>
    match getReqStr fs "created", getReqStr fs "email", getReqStr fs "id",
          getReqNat (2 ^ 64) fs "limit_domains", getReqBool fs "outreach_preference" with
    | .ok created, .ok email, .ok id, .ok limit_domains, .ok outreach_preference =>
      .ok ⟨created, email, id, limit_domains, outreach_preference⟩
    | _, _, _, _, _ => .error "invalid AccountInformation"
  | _ => .error "invalid type: expected AccountInformation object"

/-- Whitespace test of the JSON grammar (space, tab, line feed, carriage
return). -/
def jsonWs (c : Char) : Bool :=
  c == '\t' || c == '\n' || c == '\x0d' || c == ' '

/-- Skip leading JSON whitespace. -/
def skipWs : List Char → List Char
  | [] => []
  | c :: rest => if jsonWs c then skipWs rest else c :: rest

/-- Value of one hexadecimal digit. -/
def hexVal (c : Char) : Option Nat :=
  if c.isDigit then some (c.toNat - 48)
  else if c.isLower && c ≤ 'f' then some (c.toNat - 87)
  else if c.isUpper && c ≤ 'F' then some (c.toNat - 55)
  else none

/-- Single-character JSON escape sequences, as a lookup table from the
escape letter to the denoted character. -/
def escChar (c : Char) : Option Char :=
  List.lookup c
    [('"', '"'), ('\\', '\\'), ('/', '/'), ('b', Char.ofNat 8), ('f', Char.ofNat 12),
     ('n', '\n'), ('r', Char.ofNat 13), ('t', '\t')]

/-- Decode the escape sequence following a backslash: the decoded character
and the remaining input. -/
def unescapeOne : List Char → Option (Char × List Char)
  | [] => none
  | e :: rest =>
    match escChar e with
    | some ec => some (ec, rest)
    | none =>
      if e == 'u' then
        match rest with
        | h1 :: h2 :: h3 :: h4 :: rest2 =>
          match hexVal h1, hexVal h2, hexVal h3, hexVal h4 with
          | some a, some b, some c2, some d =>
            some (Char.ofNat (((a * 16 + b) * 16 + c2) * 16 + d), rest2)
          | _, _, _, _ => none
        | _ => none
      else none

/-- Parse the body of a JSON string after the opening quote; returns the
decoded characters and the input remaining after the closing quote.  The
fuel only serves the termination argument; any fuel above the remaining
input length is sufficient, and the fueled callers always hold that much. -/
def parseStringBody : Nat → List Char → Option (List Char × List Char)
  | 0, _ => none
  | _ + 1, [] => none
  | fuel + 1, c :: rest =>
    if c == '"' then some ([], rest)
    else if c == '\\' then
      match unescapeOne rest with
      | some (ec, rest2) =>
        match parseStringBody fuel rest2 with
        | some (cs, r) => some (ec :: cs, r)
        | none => none
      | none => none
    else
      match parseStringBody fuel rest with
      | some (cs, r) => some (c :: cs, r)
      | none => none

/-- Parse a run of decimal digits into a number (accumulator style). -/
def takeDigits : List Char → Nat → Nat × List Char
  | [], acc => (acc, [])
  | c :: rest, acc =>
    if c.isDigit then takeDigits rest (acc * 10 + (c.toNat - 48)) else (acc, c :: rest)

mutual

/-- Parse one JSON value (fuel-indexed recursive descent; the fuel only
bounds nesting through arrays and objects and any fuel of at least the
input length is sufficient). -/
def parseVal : Nat → List Char → Option (Json × List Char)
  | 0, _ => none
  | fuel + 1, input =>
    match skipWs input with
    | [] => none
    | c :: rest =>
      if c == '"' then
        match parseStringBody (fuel + 1) rest with
        | some (cs, rest2) => some (.str (String.mk cs), rest2)
        | none => none
      else if c == 'n' then
        match rest with
        | 'u' :: 'l' :: 'l' :: rest2 => some (.null, rest2)
        | _ => none
      else if c == 't' then
        match rest with
        | 'r' :: 'u' :: 'e' :: rest2 => some (.bool true, rest2)
        | _ => none
      else if c == 'f' then
        match rest with
        | 'a' :: 'l' :: 's' :: 'e' :: rest2 => some (.bool false, rest2)
        | _ => none
      else if c.isDigit then
        match takeDigits (c :: rest) 0 with
        | (n, rest2) => some (.num n, rest2)
      else if c == '[' then
        match skipWs rest with
        | ']' :: rest2 => some (.arr [], rest2)
        | rest2 =>
          match parseArrItems fuel rest2 with
          | some (xs, rest3) => some (.arr xs, rest3)
          | none => none
      else if c == '\x7b' then
        match skipWs rest with
        | rest2 =>
          match rest2 with
          | [] => none
          | d :: rest3 =>
            if d == '\x7d' then some (.obj [], rest3)
            else
              match parseObjItems fuel rest2 with
              | some (ms, rest4) => some (.obj ms, rest4)
              | none => none
      else none

/-- Parse the comma-separated items of a non-empty JSON array up to and
including the closing bracket. -/
def parseArrItems : Nat → List Char → Option (List Json × List Char)
  | 0, _ => none
  | fuel + 1, input =>
    match parseVal fuel input with
    | none => none
    | some (v, rest) =>
      match skipWs rest with
      | ',' :: rest2 =>
        match parseArrItems fuel rest2 with
        | some (xs, rest3) => some (v :: xs, rest3)
        | none => none
      | ']' :: rest2 => some ([v], rest2)
      | _ => none

/-- Parse the comma-separated members of a non-empty JSON object up to and
including the closing brace. -/
def parseObjItems : Nat → List Char → Option (List (String × Json) × List Char)
  | 0, _ => none
  | fuel + 1, input =>
    match skipWs input with
    | '"' :: rest =>
      match parseStringBody (fuel + 1) rest with
      | none => none
      | some (k, rest2) =>
        match skipWs rest2 with
        | ':' :: rest3 =>
          match parseVal fuel rest3 with
          | none => none
          | some (v, rest4) =>
            match skipWs rest4 with
            | ',' :: rest5 =>
              match parseObjItems fuel rest5 with
              | some (ms, rest6) => some ((String.mk k, v) :: ms, rest6)
              | none => none
            | d :: rest5 =>
              if d == '\x7d' then some ([(String.mk k, v)], rest5) else none
            | [] => none
        | _ => none
    | _ => none

end

/-- Parse a complete JSON document, the model of `serde_json::from_str`:
one value, possibly surrounded by whitespace, and nothing after it. -/
def parseJson (s : String) : Option Json :=
  match parseVal (s.length + 1) s.data with
  | some (v, rest) =>
    match skipWs rest with
    | [] => some v
    | _ => none
  | none => none

/-- An HTTP response as the dispatch code observes it: the status code
(`Response::status`) and the body text that `json()`/`text()` would read. -/
structure Response where
  status : Nat
  body : String
deriving DecidableEq, Repr

/-- Abstraction of `reqwest::Error`: a transport-level failure from `send()`,
a status error produced by `error_for_status`, or a body-decode error
produced by `json()` (the variant that `?` converts via `#[from]` into
`DeSecError::Http`). -/
inductive ReqError where
  | connect (msg : String)
  | status (code : Nat)
  | decode (msg : String)
deriving DecidableEq, Repr

/-- `DeSecError` (lib.rs lines 7-21).  Note the taxonomy has no `BadRequest`
and no `DomainLimit` variant. -/
inductive DeSecError where
  | Http (e : ReqError)
  | HttpBulk (v : Json)
  | HttpUnexpectedStatus (r : Response)
  | NotFound (s : String)
  | Parser (s : String)
  | ClientBuilder (s : String)

/-- Result of one client method: success, a `DeSecError`, or a Rust panic
(reachable only through `unwrap()`; the proofs show the dispatch code never
produces it). -/
inductive Outcome (α : Type) where
  | ok (a : α)
  | err (e : DeSecError)
  | panicked

/-- `StatusCode::is_client_error` of the http crate: 400..=499. -/
def is_client_error (s : Nat) : Bool := 400 ≤ s && s ≤ 499

/-- `StatusCode::is_server_error` of the http crate: 500..=599. -/
def is_server_error (s : Nat) : Bool := 500 ≤ s && s ≤ 599

/-- `Response::error_for_status().err()` of reqwest: yields a status error
exactly when the status is a client or server error (400..=599). -/
def errorForStatusErr (r : Response) : Option ReqError :=
  if is_client_error r.status || is_server_error r.status then
    some (.status r.status)
  else none

/-- The error arm `Err(DeSecError::Http(response.error_for_status().err().unwrap()))`
appearing verbatim in every method: `unwrap()` of `None` is a panic. -/
def httpErrBranch (r : Response) : Outcome α :=
  match errorForStatusErr r with
  | some e => .err (.Http e)
  | none => .panicked

/-- Discriminators for the outcome shape. -/
def Outcome.isOk : Outcome α → Bool
  | .ok _ => true
  | _ => false

def Outcome.isHttp : Outcome α → Bool
  | .err (.Http _) => true
  | _ => false

def Outcome.isBulk : Outcome α → Bool
  | .err (.HttpBulk _) => true
  | _ => false

def Outcome.isUnexpected : Outcome α → Bool
  | .err (.HttpUnexpectedStatus _) => true
  | _ => false

def Outcome.isNotFound : Outcome α → Bool
  | .err (.NotFound _) => true
  | _ => false

def Outcome.isParser : Outcome α → Bool
  | .err (.Parser _) => true
  | _ => false

def Outcome.isPanic : Outcome α → Bool
  | .panicked => true
  | _ => false

/-- `Response::json::<T>()`: read the body text and decode it.  The message
carried on failure stands in for `reqwest`'s error string. -/
def decodeBody (fromJson : Json → Except String α) (body : String) : Except String α :=
  match parseJson body with
  | some j => fromJson j
  | none => .error "error decoding response body"

def decodeAccount : String → Except String AccountInformation :=
  decodeBody AccountInformation.fromJson

def decodeDomain : String → Except String Domain :=
  decodeBody Domain.fromJson

def decodeDomainList : String → Except String (List Domain) :=
  decodeBody fun j =>
    match j with
    | .arr xs => exMapM Domain.fromJson xs
    | _ => .error "invalid type: expected a sequence"

def decodeRRSet : String → Except String ResourceRecordSet :=
  decodeBody ResourceRecordSet.fromJson

def decodeRRSetList : String → Except String (List ResourceRecordSet) :=
  decodeBody fun j =>
    match j with
    | .arr xs => exMapM ResourceRecordSet.fromJson xs
    | _ => .error "invalid type: expected a sequence"

/-- `get_account_info` (lib.rs lines 116-130): response dispatch.  The
argument is the result of `self.get("/auth/account/").await`. -/
def get_account_info_handle (res : Except ReqError Response) : Outcome AccountInformation :=
  match res with
  | .error e => .err (.Http e)
  | .ok r =>
    if r.status == 200 then
      match decodeAccount r.body with
      | .ok a => .ok a
      | .error m => .err (.Parser m)
    else if is_client_error r.status || is_server_error r.status then
      httpErrBranch r
    else .err (.HttpUnexpectedStatus r)

/-- `create_domain` (lib.rs lines 132-149): response dispatch (the request
body is `create_domain_body` below). -/
def create_domain_handle (res : Except ReqError Response) : Outcome Domain :=
  match res with
  | .error e => .err (.Http e)
  | .ok r =>
    if r.status == 201 then
      match decodeDomain r.body with
      | .ok d => .ok d
      | .error m => .err (.Parser m)
    else if is_client_error r.status || is_server_error r.status then
      httpErrBranch r
    else .err (.HttpUnexpectedStatus r)

/-- `get_domains` (lib.rs lines 151-165): response dispatch. -/
def get_domains_handle (res : Except ReqError Response) : Outcome (List Domain) :=
  match res with
  | .error e => .err (.Http e)
  | .ok r =>
    if r.status == 200 then
      match decodeDomainList r.body with
      | .ok ds => .ok ds
      | .error m => .err (.Parser m)
    else if is_client_error r.status || is_server_error r.status then
      httpErrBranch r
    else .err (.HttpUnexpectedStatus r)

/-- `get_domain` (lib.rs lines 167-181): response dispatch.  There is no
dedicated 404 arm: a 404 falls into the client-error arm. -/
def get_domain_handle (res : Except ReqError Response) : Outcome Domain :=
  match res with
  | .error e => .err (.Http e)
  | .ok r =>
    if r.status == 200 then
      match decodeDomain r.body with
      | .ok d => .ok d
      | .error m => .err (.Parser m)
    else if is_client_error r.status || is_server_error r.status then
      httpErrBranch r
    else .err (.HttpUnexpectedStatus r)

/-- `delete_domain` (lib.rs lines 183-197): response dispatch.  On 204 the
body text is returned; `Response::text()` is modelled as total. -/
def delete_domain_handle (res : Except ReqError Response) : Outcome String :=
  match res with
  | .error e => .err (.Http e)
  | .ok r =>
    if r.status == 204 then .ok r.body
    else if is_client_error r.status || is_server_error r.status then
      httpErrBranch r
    else .err (.HttpUnexpectedStatus r)

/-- `get_zonefile` (lib.rs lines 199-216): response dispatch. -/
def get_zonefile_handle (res : Except ReqError Response) : Outcome String :=
  match res with
  | .error e => .err (.Http e)
  | .ok r =>
    if r.status == 200 then .ok r.body
    else if is_client_error r.status || is_server_error r.status then
      httpErrBranch r
    else .err (.HttpUnexpectedStatus r)

/-- `create_rrset` (lib.rs lines 218-257): response dispatch. -/
def create_rrset_handle (res : Except ReqError Response) : Outcome ResourceRecordSet :=
  match res with
  | .error e => .err (.Http e)
  | .ok r =>
    if r.status == 201 then
      match decodeRRSet r.body with
      | .ok s => .ok s
      | .error m => .err (.Parser ("Failed to parse response after creating rrset: " ++ m))
    else if is_client_error r.status || is_server_error r.status then
      httpErrBranch r
    else .err (.HttpUnexpectedStatus r)

/-- `create_rrset_bulk` (lib.rs lines 259-284): response dispatch.  On 400
the body is parsed as a `serde_json::Value`; a parse failure there goes
through `?` and the `#[from]` conversion into `DeSecError::Http`. -/
def create_rrset_bulk_handle (res : Except ReqError Response) : Outcome Unit :=
  match res with
  | .error e => .err (.Http e)
  | .ok r =>
    if r.status == 201 then .ok ()
    else if r.status == 400 then
      match parseJson r.body with
      | some v => .err (.HttpBulk v)
      | none => .err (.Http (.decode "error decoding response body"))
    else if is_client_error r.status || is_server_error r.status then
      httpErrBranch r
    else .err (.HttpUnexpectedStatus r)

/-- `get_rrsets` (lib.rs lines 286-306): response dispatch; a 404 is mapped
to `NotFound` before the generic client-error arm. -/
def get_rrsets_handle (domain : String) (res : Except ReqError Response) :
    Outcome (List ResourceRecordSet) :=
  match res with
  | .error e => .err (.Http e)
  | .ok r =>
    if r.status == 200 then
      match decodeRRSetList r.body with
      | .ok ss => .ok ss
      | .error m => .err (.Parser ("Failed to parse rrsets: " ++ m))
    else if r.status == 404 then
      .err (.NotFound ("rrsets for domain " ++ domain ++ " not found"))
    else if is_client_error r.status || is_server_error r.status then
      httpErrBranch r
    else .err (.HttpUnexpectedStatus r)

/-- `get_rrset` (lib.rs lines 308-336): response dispatch; a 404 is mapped
to `NotFound` before the generic client-error arm. -/
def get_rrset_handle (domain subname rrset_type : String) (res : Except ReqError Response) :
    Outcome ResourceRecordSet :=
  match res with
  | .error e => .err (.Http e)
  | .ok r =>
    if r.status == 200 then
      match decodeRRSet r.body with
      | .ok s => .ok s
      | .error m => .err (.Parser ("Failed to parse rrset: " ++ m))
    else if r.status == 404 then
      .err (.NotFound ("rrset " ++ subname ++ "." ++ domain ++ " (" ++ rrset_type ++ ") not found"))
    else if is_client_error r.status || is_server_error r.status then
      httpErrBranch r
    else .err (.HttpUnexpectedStatus r)

/-- `update_rrset` (lib.rs lines 338-368): response dispatch.  There is no
dedicated 404 arm. -/
def update_rrset_handle (res : Except ReqError Response) : Outcome ResourceRecordSet :=
  match res with
  | .error e => .err (.Http e)
  | .ok r =>
    if r.status == 200 then
      match decodeRRSet r.body with
      | .ok s => .ok s
      | .error m => .err (.Parser ("Failed to parse response after updating rrset: " ++ m))
    else if is_client_error r.status || is_server_error r.status then
      httpErrBranch r
    else .err (.HttpUnexpectedStatus r)

/-- `delete_rrset` (lib.rs lines 370-396): response dispatch.  There is no
dedicated 404 arm; on 204 the body text is returned. -/
def delete_rrset_handle (res : Except ReqError Response) : Outcome String :=
  match res with
  | .error e => .err (.Http e)
  | .ok r =>
    if r.status == 204 then .ok r.body
    else if is_client_error r.status || is_server_error r.status then
      httpErrBranch r
    else .err (.HttpUnexpectedStatus r)

/-- The fixed API root `API_URL` (lib.rs line 5). -/
def API_URL : String := "https://desec.io/api/v1"

/-- The client handle (lib.rs lines 90-95); the underlying `reqwest::Client`
is a collaborator and is not part of the state modelled here. -/
structure DeSecClient where
  api_url : String
  token : String
deriving DecidableEq, Repr

/-- Outcome of `DeSecClient::new`: a client, a `DeSecError`, or a panic. -/
inductive BuildOutcome where
  | ok (c : DeSecClient)
  | err (e : DeSecError)
  | panicked

/-- Validity of one character in a header value, modelled from the http
crate (`HeaderValue::from_str` accepts exactly the visible ASCII range and
above together with space and horizontal tab: byte `b` is valid iff
`b >= 32 && b != 127 || b == 9`; for a multi-byte character every UTF-8
byte is at least 128, hence valid, which this per-character test mirrors). -/
def isValidHeaderChar (c : Char) : Bool :=
  (32 ≤ c.toNat && c.toNat != 127) || c.toNat == 9

/-- `http::HeaderValue::from_str` succeeds exactly when every character is
valid. -/
def headerValueOk (s : String) : Bool :=
  s.data.all isValidHeaderChar

/-- `DeSecClient::new` (lib.rs lines 98-114).  The `Authorization` header
value `Token <token>` is built with `HeaderValue::from_str(..).unwrap()`:
when the token cannot be encoded this is a panic, not an error return.
The subsequent `ClientBuilder::build()` of the transport collaborator is
abstracted by the `build` argument; its failure is mapped into
`DeSecError::ClientBuilder`. -/
def DeSecClient.new (token : String) (build : Except String Unit) : BuildOutcome :=
  if headerValueOk ("Token " ++ token) then
    match build with
    | .ok _ => .ok { api_url := API_URL, token := token }
    | .error m => .err (.ClientBuilder m)
  else .panicked

/-- The request body of `create_domain` (lib.rs line 134): the hand-rolled
`format!` template with a literal open brace, `"name": "`, the raw domain
string, and closing quote and brace — not a call into `serde_json`. -/
def create_domain_body (domain : String) : String :=
  "\x7b\"name\": \"" ++ domain ++ "\"\x7d"

/-- The rrset endpoint path shared by `get_rrset`, `update_rrset` and
`delete_rrset` (lib.rs lines 315, 347, 377):
`format!("/domains/{}/rrsets/{}/{}/", domain, subname, rrset_type)`,
plain interpolation with no encoding of the arguments. -/
def rrset_endpoint (domain subname rrset_type : String) : String :=
  "/domains/" ++ domain ++ "/rrsets/" ++ subname ++ "/" ++ rrset_type ++ "/"

/-- URL construction in the private `get`/`patch`/`delete` helpers
(lib.rs lines 398-428): `format!("{}{}", self.api_url, endpoint)`. -/
def request_url (api_url endpoint : String) : String :=
  api_url ++ endpoint

/-- The full URL requested by `get_rrset`. -/
def get_rrset_url (api_url domain subname rrset_type : String) : String :=
  request_url api_url (rrset_endpoint domain subname rrset_type)

/-- The full URL requested by `update_rrset`. -/
def update_rrset_url (api_url domain subname rrset_type : String) : String :=
  request_url api_url (rrset_endpoint domain subname rrset_type)

/-- The full URL requested by `delete_rrset`. -/
def delete_rrset_url (api_url domain subname rrset_type : String) : String :=
  request_url api_url (rrset_endpoint domain subname rrset_type)

/-! Helper lemmas about the shared pieces of the response dispatch. -/

theorem client_server_true {s : Nat} (h : 400 ≤ s ∧ s ≤ 599) :
    (is_client_error s || is_server_error s) = true := by
  simp only [is_client_error, is_server_error, Bool.or_eq_true, Bool.and_eq_true,
    decide_eq_true_eq]
  omega

theorem client_server_false {s : Nat} (h : ¬(400 ≤ s ∧ s ≤ 599)) :
    (is_client_error s || is_server_error s) = false := by
  simp only [is_client_error, is_server_error, Bool.or_eq_false_iff, Bool.and_eq_false_iff,
    decide_eq_false_iff_not]
  omega

theorem httpErrBranch_eq (r : Response) (h : 400 ≤ r.status ∧ r.status ≤ 599) :
    (httpErrBranch r : Outcome α) = .err (.Http (.status r.status)) := by
  simp [httpErrBranch, errorForStatusErr, client_server_true h]

/-! Per-operation dispatch lemmas: behaviour on 4xx/5xx statuses without a
dedicated arm, on statuses outside both the success status and the error
classes, the success-only direction, panic-freedom, and the `Parser` arm
(for the operations that decode a JSON body). -/

theorem get_account_info_http (r : Response) (h : 400 ≤ r.status ∧ r.status ≤ 599) :
    get_account_info_handle (.ok r) = .err (.Http (.status r.status)) := by
  have h200 : (r.status == 200) = false := by simp; omega
  simp [get_account_info_handle, h200, client_server_true h, httpErrBranch_eq r h]

theorem get_account_info_unexp (r : Response) (h : ¬(400 ≤ r.status ∧ r.status ≤ 599))
    (hs : r.status ≠ 200) :
    get_account_info_handle (.ok r) = .err (.HttpUnexpectedStatus r) := by
  have hs' : (r.status == 200) = false := by simp [hs]
  simp [get_account_info_handle, hs', client_server_false h]

theorem get_account_info_ok_status (res : Except ReqError Response)
    (h : (get_account_info_handle res).isOk = true) : ∃ r, res = .ok r ∧ r.status = 200 := by
  match res with
  | .error e => simp [get_account_info_handle, Outcome.isOk] at h
  | .ok r =>
    refine ⟨r, rfl, ?_⟩
    by_contra hne
    rcases Nat.lt_or_ge r.status 400 with hlt | hge
    · rw [get_account_info_unexp r (by omega) hne] at h
      simp [Outcome.isOk] at h
    · rcases Nat.lt_or_ge r.status 600 with hlt2 | hge2
      · rw [get_account_info_http r (by omega)] at h
        simp [Outcome.isOk] at h
      · rw [get_account_info_unexp r (by omega) hne] at h
        simp [Outcome.isOk] at h

theorem get_account_info_no_panic (res : Except ReqError Response) :
    (get_account_info_handle res).isPanic = false := by
  match res with
  | .error e => simp [get_account_info_handle, Outcome.isPanic]
  | .ok r =>
    simp only [get_account_info_handle]
    by_cases hs : r.status = 200
    · simp only [hs]
      cases decodeAccount r.body <;> simp [Outcome.isPanic]
    · by_cases hr : 400 ≤ r.status ∧ r.status ≤ 599
      · have : (r.status == 200) = false := by simp [hs]
        simp [this, client_server_true hr, httpErrBranch_eq r hr, Outcome.isPanic]
      · have : (r.status == 200) = false := by simp [hs]
        simp [this, client_server_false hr, Outcome.isPanic]

theorem get_account_info_parse_err (r : Response) (h : r.status = 200) (m : String)
    (hd : decodeAccount r.body = .error m) :
    get_account_info_handle (.ok r) = .err (.Parser m) := by
  simp [get_account_info_handle, h, hd]

theorem create_domain_http (r : Response) (h : 400 ≤ r.status ∧ r.status ≤ 599) :
    create_domain_handle (.ok r) = .err (.Http (.status r.status)) := by
  have h201 : (r.status == 201) = false := by simp; omega
  simp [create_domain_handle, h201, client_server_true h, httpErrBranch_eq r h]

theorem create_domain_unexp (r : Response) (h : ¬(400 ≤ r.status ∧ r.status ≤ 599))
    (hs : r.status ≠ 201) :
    create_domain_handle (.ok r) = .err (.HttpUnexpectedStatus r) := by
  have hs' : (r.status == 201) = false := by simp [hs]
  simp [create_domain_handle, hs', client_server_false h]

theorem create_domain_ok_status (res : Except ReqError Response)
    (h : (create_domain_handle res).isOk = true) : ∃ r, res = .ok r ∧ r.status = 201 := by
  match res with
  | .error e => simp [create_domain_handle, Outcome.isOk] at h
  | .ok r =>
    refine ⟨r, rfl, ?_⟩
    by_contra hne
    rcases Nat.lt_or_ge r.status 400 with hlt | hge
    · rw [create_domain_unexp r (by omega) hne] at h
      simp [Outcome.isOk] at h
    · rcases Nat.lt_or_ge r.status 600 with hlt2 | hge2
      · rw [create_domain_http r (by omega)] at h
        simp [Outcome.isOk] at h
      · rw [create_domain_unexp r (by omega) hne] at h
        simp [Outcome.isOk] at h

theorem create_domain_no_panic (res : Except ReqError Response) :
    (create_domain_handle res).isPanic = false := by
  match res with
  | .error e => simp [create_domain_handle, Outcome.isPanic]
  | .ok r =>
    simp only [create_domain_handle]
    by_cases hs : r.status = 201
    · simp only [hs]
      cases decodeDomain r.body <;> simp [Outcome.isPanic]
    · by_cases hr : 400 ≤ r.status ∧ r.status ≤ 599
      · have : (r.status == 201) = false := by simp [hs]
        simp [this, client_server_true hr, httpErrBranch_eq r hr, Outcome.isPanic]
      · have : (r.status == 201) = false := by simp [hs]
        simp [this, client_server_false hr, Outcome.isPanic]

theorem create_domain_parse_err (r : Response) (h : r.status = 201) (m : String)
    (hd : decodeDomain r.body = .error m) :
    create_domain_handle (.ok r) = .err (.Parser m) := by
  simp [create_domain_handle, h, hd]

theorem get_domains_http (r : Response) (h : 400 ≤ r.status ∧ r.status ≤ 599) :
    get_domains_handle (.ok r) = .err (.Http (.status r.status)) := by
  have h200 : (r.status == 200) = false := by simp; omega
  simp [get_domains_handle, h200, client_server_true h, httpErrBranch_eq r h]

theorem get_domains_unexp (r : Response) (h : ¬(400 ≤ r.status ∧ r.status ≤ 599))
    (hs : r.status ≠ 200) :
    get_domains_handle (.ok r) = .err (.HttpUnexpectedStatus r) := by
  have hs' : (r.status == 200) = false := by simp [hs]
  simp [get_domains_handle, hs', client_server_false h]

theorem get_domains_ok_status (res : Except ReqError Response)
    (h : (get_domains_handle res).isOk = true) : ∃ r, res = .ok r ∧ r.status = 200 := by
  match res with
  | .error e => simp [get_domains_handle, Outcome.isOk] at h
  | .ok r =>
    refine ⟨r, rfl, ?_⟩
    by_contra hne
    rcases Nat.lt_or_ge r.status 400 with hlt | hge
    · rw [get_domains_unexp r (by omega) hne] at h
      simp [Outcome.isOk] at h
    · rcases Nat.lt_or_ge r.status 600 with hlt2 | hge2
      · rw [get_domains_http r (by omega)] at h
        simp [Outcome.isOk] at h
      · rw [get_domains_unexp r (by omega) hne] at h
        simp [Outcome.isOk] at h

theorem get_domains_no_panic (res : Except ReqError Response) :
    (get_domains_handle res).isPanic = false := by
  match res with
  | .error e => simp [get_domains_handle, Outcome.isPanic]
  | .ok r =>
    simp only [get_domains_handle]
    by_cases hs : r.status = 200
    · simp only [hs]
      cases decodeDomainList r.body <;> simp [Outcome.isPanic]
    · by_cases hr : 400 ≤ r.status ∧ r.status ≤ 599
      · have : (r.status == 200) = false := by simp [hs]
        simp [this, client_server_true hr, httpErrBranch_eq r hr, Outcome.isPanic]
      · have : (r.status == 200) = false := by simp [hs]
        simp [this, client_server_false hr, Outcome.isPanic]

theorem get_domains_parse_err (r : Response) (h : r.status = 200) (m : String)
    (hd : decodeDomainList r.body = .error m) :
    get_domains_handle (.ok r) = .err (.Parser m) := by
  simp [get_domains_handle, h, hd]

theorem get_domain_http (r : Response) (h : 400 ≤ r.status ∧ r.status ≤ 599) :
    get_domain_handle (.ok r) = .err (.Http (.status r.status)) := by
  have h200 : (r.status == 200) = false := by simp; omega
  simp [get_domain_handle, h200, client_server_true h, httpErrBranch_eq r h]

theorem get_domain_unexp (r : Response) (h : ¬(400 ≤ r.status ∧ r.status ≤ 599))
    (hs : r.status ≠ 200) :
    get_domain_handle (.ok r) = .err (.HttpUnexpectedStatus r) := by
  have hs' : (r.status == 200) = false := by simp [hs]
  simp [get_domain_handle, hs', client_server_false h]

theorem get_domain_ok_status (res : Except ReqError Response)
    (h : (get_domain_handle res).isOk = true) : ∃ r, res = .ok r ∧ r.status = 200 := by
  match res with
  | .error e => simp [get_domain_handle, Outcome.isOk] at h
  | .ok r =>
    refine ⟨r, rfl, ?_⟩
    by_contra hne
    rcases Nat.lt_or_ge r.status 400 with hlt | hge
    · rw [get_domain_unexp r (by omega) hne] at h
      simp [Outcome.isOk] at h
    · rcases Nat.lt_or_ge r.status 600 with hlt2 | hge2
      · rw [get_domain_http r (by omega)] at h
        simp [Outcome.isOk] at h
      · rw [get_domain_unexp r (by omega) hne] at h
        simp [Outcome.isOk] at h

theorem get_domain_no_panic (res : Except ReqError Response) :
    (get_domain_handle res).isPanic = false := by
  match res with
  | .error e => simp [get_domain_handle, Outcome.isPanic]
  | .ok r =>
    simp only [get_domain_handle]
    by_cases hs : r.status = 200
    · simp only [hs]
      cases decodeDomain r.body <;> simp [Outcome.isPanic]
    · by_cases hr : 400 ≤ r.status ∧ r.status ≤ 599
      · have : (r.status == 200) = false := by simp [hs]
        simp [this, client_server_true hr, httpErrBranch_eq r hr, Outcome.isPanic]
      · have : (r.status == 200) = false := by simp [hs]
        simp [this, client_server_false hr, Outcome.isPanic]

theorem get_domain_parse_err (r : Response) (h : r.status = 200) (m : String)
    (hd : decodeDomain r.body = .error m) :
    get_domain_handle (.ok r) = .err (.Parser m) := by
  simp [get_domain_handle, h, hd]

theorem delete_domain_http (r : Response) (h : 400 ≤ r.status ∧ r.status ≤ 599) :
    delete_domain_handle (.ok r) = .err (.Http (.status r.status)) := by
  have h204 : (r.status == 204) = false := by simp; omega
  simp [delete_domain_handle, h204, client_server_true h, httpErrBranch_eq r h]

theorem delete_domain_unexp (r : Response) (h : ¬(400 ≤ r.status ∧ r.status ≤ 599))
    (hs : r.status ≠ 204) :
    delete_domain_handle (.ok r) = .err (.HttpUnexpectedStatus r) := by
  have hs' : (r.status == 204) = false := by simp [hs]
  simp [delete_domain_handle, hs', client_server_false h]

theorem delete_domain_ok_status (res : Except ReqError Response)
    (h : (delete_domain_handle res).isOk = true) : ∃ r, res = .ok r ∧ r.status = 204 := by
  match res with
  | .error e => simp [delete_domain_handle, Outcome.isOk] at h
  | .ok r =>
    refine ⟨r, rfl, ?_⟩
    by_contra hne
    rcases Nat.lt_or_ge r.status 400 with hlt | hge
    · rw [delete_domain_unexp r (by omega) hne] at h
      simp [Outcome.isOk] at h
    · rcases Nat.lt_or_ge r.status 600 with hlt2 | hge2
      · rw [delete_domain_http r (by omega)] at h
        simp [Outcome.isOk] at h
      · rw [delete_domain_unexp r (by omega) hne] at h
        simp [Outcome.isOk] at h

theorem delete_domain_no_panic (res : Except ReqError Response) :
    (delete_domain_handle res).isPanic = false := by
  match res with
  | .error e => simp [delete_domain_handle, Outcome.isPanic]
  | .ok r =>
    simp only [delete_domain_handle]
    by_cases hs : r.status = 204
    · simp [hs, Outcome.isPanic]
    · by_cases hr : 400 ≤ r.status ∧ r.status ≤ 599
      · have : (r.status == 204) = false := by simp [hs]
        simp [this, client_server_true hr, httpErrBranch_eq r hr, Outcome.isPanic]
      · have : (r.status == 204) = false := by simp [hs]
        simp [this, client_server_false hr, Outcome.isPanic]

theorem get_zonefile_http (r : Response) (h : 400 ≤ r.status ∧ r.status ≤ 599) :
    get_zonefile_handle (.ok r) = .err (.Http (.status r.status)) := by
  have h200 : (r.status == 200) = false := by simp; omega
  simp [get_zonefile_handle, h200, client_server_true h, httpErrBranch_eq r h]

theorem get_zonefile_unexp (r : Response) (h : ¬(400 ≤ r.status ∧ r.status ≤ 599))
    (hs : r.status ≠ 200) :
    get_zonefile_handle (.ok r) = .err (.HttpUnexpectedStatus r) := by
  have hs' : (r.status == 200) = false := by simp [hs]
  simp [get_zonefile_handle, hs', client_server_false h]

theorem get_zonefile_ok_status (res : Except ReqError Response)
    (h : (get_zonefile_handle res).isOk = true) : ∃ r, res = .ok r ∧ r.status = 200 := by
  match res with
  | .error e => simp [get_zonefile_handle, Outcome.isOk] at h
  | .ok r =>
    refine ⟨r, rfl, ?_⟩
    by_contra hne
    rcases Nat.lt_or_ge r.status 400 with hlt | hge
    · rw [get_zonefile_unexp r (by omega) hne] at h
      simp [Outcome.isOk] at h
    · rcases Nat.lt_or_ge r.status 600 with hlt2 | hge2
      · rw [get_zonefile_http r (by omega)] at h
        simp [Outcome.isOk] at h
      · rw [get_zonefile_unexp r (by omega) hne] at h
        simp [Outcome.isOk] at h

theorem get_zonefile_no_panic (res : Except ReqError Response) :
    (get_zonefile_handle res).isPanic = false := by
  match res with
  | .error e => simp [get_zonefile_handle, Outcome.isPanic]
  | .ok r =>
    simp only [get_zonefile_handle]
    by_cases hs : r.status = 200
    · simp [hs, Outcome.isPanic]
    · by_cases hr : 400 ≤ r.status ∧ r.status ≤ 599
      · have : (r.status == 200) = false := by simp [hs]
        simp [this, client_server_true hr, httpErrBranch_eq r hr, Outcome.isPanic]
      · have : (r.status == 200) = false := by simp [hs]
        simp [this, client_server_false hr, Outcome.isPanic]

theorem create_rrset_http (r : Response) (h : 400 ≤ r.status ∧ r.status ≤ 599) :
    create_rrset_handle (.ok r) = .err (.Http (.status r.status)) := by
  have h201 : (r.status == 201) = false := by simp; omega
  simp [create_rrset_handle, h201, client_server_true h, httpErrBranch_eq r h]

theorem create_rrset_unexp (r : Response) (h : ¬(400 ≤ r.status ∧ r.status ≤ 599))
    (hs : r.status ≠ 201) :
    create_rrset_handle (.ok r) = .err (.HttpUnexpectedStatus r) := by
  have hs' : (r.status == 201) = false := by simp [hs]
  simp [create_rrset_handle, hs', client_server_false h]

theorem create_rrset_ok_status (res : Except ReqError Response)
    (h : (create_rrset_handle res).isOk = true) : ∃ r, res = .ok r ∧ r.status = 201 := by
  match res with
  | .error e => simp [create_rrset_handle, Outcome.isOk] at h
  | .ok r =>
    refine ⟨r, rfl, ?_⟩
    by_contra hne
    rcases Nat.lt_or_ge r.status 400 with hlt | hge
    · rw [create_rrset_unexp r (by omega) hne] at h
      simp [Outcome.isOk] at h
    · rcases Nat.lt_or_ge r.status 600 with hlt2 | hge2
      · rw [create_rrset_http r (by omega)] at h
        simp [Outcome.isOk] at h
      · rw [create_rrset_unexp r (by omega) hne] at h
        simp [Outcome.isOk] at h

theorem create_rrset_no_panic (res : Except ReqError Response) :
    (create_rrset_handle res).isPanic = false := by
  match res with
  | .error e => simp [create_rrset_handle, Outcome.isPanic]
  | .ok r =>
    simp only [create_rrset_handle]
    by_cases hs : r.status = 201
    · simp only [hs]
      cases decodeRRSet r.body <;> simp [Outcome.isPanic]
    · by_cases hr : 400 ≤ r.status ∧ r.status ≤ 599
      · have : (r.status == 201) = false := by simp [hs]
        simp [this, client_server_true hr, httpErrBranch_eq r hr, Outcome.isPanic]
      · have : (r.status == 201) = false := by simp [hs]
        simp [this, client_server_false hr, Outcome.isPanic]

theorem create_rrset_parse_err (r : Response) (h : r.status = 201) (m : String)
    (hd : decodeRRSet r.body = .error m) :
    create_rrset_handle (.ok r) =
      .err (.Parser ("Failed to parse response after creating rrset: " ++ m)) := by
  simp [create_rrset_handle, h, hd]

theorem create_rrset_bulk_ok (r : Response) (h : r.status = 201) :
    create_rrset_bulk_handle (.ok r) = .ok () := by
  simp [create_rrset_bulk_handle, h]

theorem create_rrset_bulk_400_parsed (r : Response) (h : r.status = 400) (v : Json)
    (hv : parseJson r.body = some v) :
    create_rrset_bulk_handle (.ok r) = .err (.HttpBulk v) := by
  simp [create_rrset_bulk_handle, h, hv]

theorem create_rrset_bulk_400_unparsed (r : Response) (h : r.status = 400)
    (hv : parseJson r.body = none) :
    create_rrset_bulk_handle (.ok r) = .err (.Http (.decode "error decoding response body")) := by
  simp [create_rrset_bulk_handle, h, hv]

theorem create_rrset_bulk_http (r : Response) (h : 400 ≤ r.status ∧ r.status ≤ 599)
    (h400 : r.status ≠ 400) :
    create_rrset_bulk_handle (.ok r) = .err (.Http (.status r.status)) := by
  have h201 : (r.status == 201) = false := by simp; omega
  have h400' : (r.status == 400) = false := by simp [h400]
  simp [create_rrset_bulk_handle, h201, h400', client_server_true h, httpErrBranch_eq r h]

theorem create_rrset_bulk_unexp (r : Response) (h : ¬(400 ≤ r.status ∧ r.status ≤ 599))
    (hs : r.status ≠ 201) :
    create_rrset_bulk_handle (.ok r) = .err (.HttpUnexpectedStatus r) := by
  have hs' : (r.status == 201) = false := by simp [hs]
  have h400' : (r.status == 400) = false := by simp; omega
  simp [create_rrset_bulk_handle, hs', h400', client_server_false h]

theorem create_rrset_bulk_ok_status (res : Except ReqError Response)
    (h : (create_rrset_bulk_handle res).isOk = true) : ∃ r, res = .ok r ∧ r.status = 201 := by
  match res with
  | .error e => simp [create_rrset_bulk_handle, Outcome.isOk] at h
  | .ok r =>
    refine ⟨r, rfl, ?_⟩
    by_contra hne
    by_cases h400 : r.status = 400
    · rcases hp : parseJson r.body with _ | v
      · rw [create_rrset_bulk_400_unparsed r h400 hp] at h
        simp [Outcome.isOk] at h
      · rw [create_rrset_bulk_400_parsed r h400 v hp] at h
        simp [Outcome.isOk] at h
    · rcases Nat.lt_or_ge r.status 400 with hlt | hge
      · rw [create_rrset_bulk_unexp r (by omega) hne] at h
        simp [Outcome.isOk] at h
      · rcases Nat.lt_or_ge r.status 600 with hlt2 | hge2
        · rw [create_rrset_bulk_http r (by omega) h400] at h
          simp [Outcome.isOk] at h
        · rw [create_rrset_bulk_unexp r (by omega) hne] at h
          simp [Outcome.isOk] at h

theorem create_rrset_bulk_no_panic (res : Except ReqError Response) :
    (create_rrset_bulk_handle res).isPanic = false := by
  match res with
  | .error e => simp [create_rrset_bulk_handle, Outcome.isPanic]
  | .ok r =>
    by_cases hs : r.status = 201
    · simp [create_rrset_bulk_ok r hs, Outcome.isPanic]
    · by_cases h400 : r.status = 400
      · rcases hp : parseJson r.body with _ | v
        · simp [create_rrset_bulk_400_unparsed r h400 hp, Outcome.isPanic]
        · simp [create_rrset_bulk_400_parsed r h400 v hp, Outcome.isPanic]
      · by_cases hr : 400 ≤ r.status ∧ r.status ≤ 599
        · simp [create_rrset_bulk_http r hr h400, Outcome.isPanic]
        · simp [create_rrset_bulk_unexp r hr hs, Outcome.isPanic]

theorem get_rrsets_notfound (domain : String) (r : Response) (h : r.status = 404) :
    get_rrsets_handle domain (.ok r) =
      .err (.NotFound ("rrsets for domain " ++ domain ++ " not found")) := by
  simp [get_rrsets_handle, h]

theorem get_rrsets_http (domain : String) (r : Response) (h : 400 ≤ r.status ∧ r.status ≤ 599)
    (h404 : r.status ≠ 404) :
    get_rrsets_handle domain (.ok r) = .err (.Http (.status r.status)) := by
  have h200 : (r.status == 200) = false := by simp; omega
  have h404' : (r.status == 404) = false := by simp [h404]
  simp [get_rrsets_handle, h200, h404', client_server_true h, httpErrBranch_eq r h]

theorem get_rrsets_unexp (domain : String) (r : Response)
    (h : ¬(400 ≤ r.status ∧ r.status ≤ 599)) (hs : r.status ≠ 200) :
    get_rrsets_handle domain (.ok r) = .err (.HttpUnexpectedStatus r) := by
  have hs' : (r.status == 200) = false := by simp [hs]
  have h404' : (r.status == 404) = false := by simp; omega
  simp [get_rrsets_handle, hs', h404', client_server_false h]

theorem get_rrsets_ok_status (domain : String) (res : Except ReqError Response)
    (h : (get_rrsets_handle domain res).isOk = true) : ∃ r, res = .ok r ∧ r.status = 200 := by
  match res with
  | .error e => simp [get_rrsets_handle, Outcome.isOk] at h
  | .ok r =>
    refine ⟨r, rfl, ?_⟩
    by_contra hne
    by_cases h404 : r.status = 404
    · rw [get_rrsets_notfound domain r h404] at h
      simp [Outcome.isOk] at h
    · rcases Nat.lt_or_ge r.status 400 with hlt | hge
      · rw [get_rrsets_unexp domain r (by omega) hne] at h
        simp [Outcome.isOk] at h
      · rcases Nat.lt_or_ge r.status 600 with hlt2 | hge2
        · rw [get_rrsets_http domain r (by omega) h404] at h
          simp [Outcome.isOk] at h
        · rw [get_rrsets_unexp domain r (by omega) hne] at h
          simp [Outcome.isOk] at h

theorem get_rrsets_no_panic (domain : String) (res : Except ReqError Response) :
    (get_rrsets_handle domain res).isPanic = false := by
  match res with
  | .error e => simp [get_rrsets_handle, Outcome.isPanic]
  | .ok r =>
    by_cases hs : r.status = 200
    · simp only [get_rrsets_handle, hs]
      cases decodeRRSetList r.body <;> simp [Outcome.isPanic]
    · by_cases h404 : r.status = 404
      · simp [get_rrsets_notfound domain r h404, Outcome.isPanic]
      · by_cases hr : 400 ≤ r.status ∧ r.status ≤ 599
        · simp [get_rrsets_http domain r hr h404, Outcome.isPanic]
        · simp [get_rrsets_unexp domain r hr hs, Outcome.isPanic]

theorem get_rrsets_parse_err (domain : String) (r : Response) (h : r.status = 200) (m : String)
    (hd : decodeRRSetList r.body = .error m) :
    get_rrsets_handle domain (.ok r) = .err (.Parser ("Failed to parse rrsets: " ++ m)) := by
  simp [get_rrsets_handle, h, hd]

theorem get_rrset_notfound (domain subname rrset_type : String) (r : Response)
    (h : r.status = 404) :
    get_rrset_handle domain subname rrset_type (.ok r) =
      .err (.NotFound ("rrset " ++ subname ++ "." ++ domain ++ " (" ++ rrset_type ++
        ") not found")) := by
  simp [get_rrset_handle, h]

theorem get_rrset_http (domain subname rrset_type : String) (r : Response)
    (h : 400 ≤ r.status ∧ r.status ≤ 599) (h404 : r.status ≠ 404) :
    get_rrset_handle domain subname rrset_type (.ok r) = .err (.Http (.status r.status)) := by
  have h200 : (r.status == 200) = false := by simp; omega
  have h404' : (r.status == 404) = false := by simp [h404]
  simp [get_rrset_handle, h200, h404', client_server_true h, httpErrBranch_eq r h]

theorem get_rrset_unexp (domain subname rrset_type : String) (r : Response)
    (h : ¬(400 ≤ r.status ∧ r.status ≤ 599)) (hs : r.status ≠ 200) :
    get_rrset_handle domain subname rrset_type (.ok r) = .err (.HttpUnexpectedStatus r) := by
  have hs' : (r.status == 200) = false := by simp [hs]
  have h404' : (r.status == 404) = false := by simp; omega
  simp [get_rrset_handle, hs', h404', client_server_false h]

theorem get_rrset_ok_status (domain subname rrset_type : String) (res : Except ReqError Response)
    (h : (get_rrset_handle domain subname rrset_type res).isOk = true) :
    ∃ r, res = .ok r ∧ r.status = 200 := by
  match res with
  | .error e => simp [get_rrset_handle, Outcome.isOk] at h
  | .ok r =>
    refine ⟨r, rfl, ?_⟩
    by_contra hne
    by_cases h404 : r.status = 404
    · rw [get_rrset_notfound domain subname rrset_type r h404] at h
      simp [Outcome.isOk] at h
    · rcases Nat.lt_or_ge r.status 400 with hlt | hge
      · rw [get_rrset_unexp domain subname rrset_type r (by omega) hne] at h
        simp [Outcome.isOk] at h
      · rcases Nat.lt_or_ge r.status 600 with hlt2 | hge2
        · rw [get_rrset_http domain subname rrset_type r (by omega) h404] at h
          simp [Outcome.isOk] at h
        · rw [get_rrset_unexp domain subname rrset_type r (by omega) hne] at h
          simp [Outcome.isOk] at h

theorem get_rrset_no_panic (domain subname rrset_type : String)
    (res : Except ReqError Response) :
    (get_rrset_handle domain subname rrset_type res).isPanic = false := by
  match res with
  | .error e => simp [get_rrset_handle, Outcome.isPanic]
  | .ok r =>
    by_cases hs : r.status = 200
    · simp only [get_rrset_handle, hs]
      cases decodeRRSet r.body <;> simp [Outcome.isPanic]
    · by_cases h404 : r.status = 404
      · simp [get_rrset_notfound domain subname rrset_type r h404, Outcome.isPanic]
      · by_cases hr : 400 ≤ r.status ∧ r.status ≤ 599
        · simp [get_rrset_http domain subname rrset_type r hr h404, Outcome.isPanic]
        · simp [get_rrset_unexp domain subname rrset_type r hr hs, Outcome.isPanic]

theorem get_rrset_parse_err (domain subname rrset_type : String) (r : Response)
    (h : r.status = 200) (m : String) (hd : decodeRRSet r.body = .error m) :
    get_rrset_handle domain subname rrset_type (.ok r) =
      .err (.Parser ("Failed to parse rrset: " ++ m)) := by
  simp [get_rrset_handle, h, hd]

theorem update_rrset_http (r : Response) (h : 400 ≤ r.status ∧ r.status ≤ 599) :
    update_rrset_handle (.ok r) = .err (.Http (.status r.status)) := by
  have h200 : (r.status == 200) = false := by simp; omega
  simp [update_rrset_handle, h200, client_server_true h, httpErrBranch_eq r h]

theorem update_rrset_unexp (r : Response) (h : ¬(400 ≤ r.status ∧ r.status ≤ 599))
    (hs : r.status ≠ 200) :
    update_rrset_handle (.ok r) = .err (.HttpUnexpectedStatus r) := by
  have hs' : (r.status == 200) = false := by simp [hs]
  simp [update_rrset_handle, hs', client_server_false h]

theorem update_rrset_ok_status (res : Except ReqError Response)
    (h : (update_rrset_handle res).isOk = true) : ∃ r, res = .ok r ∧ r.status = 200 := by
  match res with
  | .error e => simp [update_rrset_handle, Outcome.isOk] at h
  | .ok r =>
    refine ⟨r, rfl, ?_⟩
    by_contra hne
    rcases Nat.lt_or_ge r.status 400 with hlt | hge
    · rw [update_rrset_unexp r (by omega) hne] at h
      simp [Outcome.isOk] at h
    · rcases Nat.lt_or_ge r.status 600 with hlt2 | hge2
      · rw [update_rrset_http r (by omega)] at h
        simp [Outcome.isOk] at h
      · rw [update_rrset_unexp r (by omega) hne] at h
        simp [Outcome.isOk] at h

theorem update_rrset_no_panic (res : Except ReqError Response) :
    (update_rrset_handle res).isPanic = false := by
  match res with
  | .error e => simp [update_rrset_handle, Outcome.isPanic]
  | .ok r =>
    simp only [update_rrset_handle]
    by_cases hs : r.status = 200
    · simp only [hs]
      cases decodeRRSet r.body <;> simp [Outcome.isPanic]
    · by_cases hr : 400 ≤ r.status ∧ r.status ≤ 599
      · have : (r.status == 200) = false := by simp [hs]
        simp [this, client_server_true hr, httpErrBranch_eq r hr, Outcome.isPanic]
      · have : (r.status == 200) = false := by simp [hs]
        simp [this, client_server_false hr, Outcome.isPanic]

theorem update_rrset_parse_err (r : Response) (h : r.status = 200) (m : String)
    (hd : decodeRRSet r.body = .error m) :
    update_rrset_handle (.ok r) =
      .err (.Parser ("Failed to parse response after updating rrset: " ++ m)) := by
  simp [update_rrset_handle, h, hd]

theorem delete_rrset_http (r : Response) (h : 400 ≤ r.status ∧ r.status ≤ 599) :
    delete_rrset_handle (.ok r) = .err (.Http (.status r.status)) := by
  have h204 : (r.status == 204) = false := by simp; omega
  simp [delete_rrset_handle, h204, client_server_true h, httpErrBranch_eq r h]

theorem delete_rrset_unexp (r : Response) (h : ¬(400 ≤ r.status ∧ r.status ≤ 599))
    (hs : r.status ≠ 204) :
    delete_rrset_handle (.ok r) = .err (.HttpUnexpectedStatus r) := by
  have hs' : (r.status == 204) = false := by simp [hs]
  simp [delete_rrset_handle, hs', client_server_false h]

theorem delete_rrset_ok_status (res : Except ReqError Response)
    (h : (delete_rrset_handle res).isOk = true) : ∃ r, res = .ok r ∧ r.status = 204 := by
  match res with
  | .error e => simp [delete_rrset_handle, Outcome.isOk] at h
  | .ok r =>
    refine ⟨r, rfl, ?_⟩
    by_contra hne
    rcases Nat.lt_or_ge r.status 400 with hlt | hge
    · rw [delete_rrset_unexp r (by omega) hne] at h
      simp [Outcome.isOk] at h
    · rcases Nat.lt_or_ge r.status 600 with hlt2 | hge2
      · rw [delete_rrset_http r (by omega)] at h
        simp [Outcome.isOk] at h
      · rw [delete_rrset_unexp r (by omega) hne] at h
        simp [Outcome.isOk] at h

theorem delete_rrset_no_panic (res : Except ReqError Response) :
    (delete_rrset_handle res).isPanic = false := by
  match res with
  | .error e => simp [delete_rrset_handle, Outcome.isPanic]
  | .ok r =>
    simp only [delete_rrset_handle]
    by_cases hs : r.status = 204
    · simp [hs, Outcome.isPanic]
    · by_cases hr : 400 ≤ r.status ∧ r.status ≤ 599
      · have : (r.status == 204) = false := by simp [hs]
        simp [this, client_server_true hr, httpErrBranch_eq r hr, Outcome.isPanic]
      · have : (r.status == 204) = false := by simp [hs]
        simp [this, client_server_false hr, Outcome.isPanic]

/-! Lookup lemmas for serialized field lists, and the round-trip of the
serde encoders/decoders. -/

theorem jlookup_skip {k1 k : String} (f : α → Json) (o : Option α)
    (rest : List (String × Json)) (h : (k1 == k) = false) :
    jlookup (optField k1 f o ++ rest) k = jlookup rest k := by
  cases o <;> simp [optField, jlookup, h]

theorem jlookup_at (k : String) (f : α → Json) (o : Option α) (rest : List (String × Json)) :
    jlookup (optField k f o ++ rest) k =
      match o with
      | some a => some (f a)
      | none => jlookup rest k := by
  cases o <;> simp [optField, jlookup]

theorem jlookup_last (k : String) (f : α → Json) (o : Option α) :
    jlookup (optField k f o) k = o.map f := by
  cases o <;> simp [optField, jlookup]

theorem jlookup_last_skip {k1 k : String} (f : α → Json) (o : Option α)
    (h : (k1 == k) = false) :
    jlookup (optField k1 f o) k = none := by
  cases o <;> simp [optField, jlookup, h]

theorem kil_dnskey (k : DNSSECKeyInfo) : jlookup k.fields "dnskey" = k.dnskey.map .str := by
  unfold DNSSECKeyInfo.fields
  simp [jlookup_skip, jlookup_at, jlookup_last, jlookup_last_skip]
  cases k.dnskey <;> simp

theorem kil_ds (k : DNSSECKeyInfo) :
    jlookup k.fields "ds" = k.ds.map fun l => .arr (l.map .str) := by
  unfold DNSSECKeyInfo.fields
  simp [jlookup_skip, jlookup_at, jlookup_last, jlookup_last_skip]
  cases k.ds <;> simp

theorem kil_flags (k : DNSSECKeyInfo) : jlookup k.fields "flags" = k.keyflags.map .num := by
  unfold DNSSECKeyInfo.fields
  simp [jlookup_skip, jlookup_at, jlookup_last, jlookup_last_skip]
  cases k.keyflags <;> simp

theorem kil_keytype (k : DNSSECKeyInfo) : jlookup k.fields "keytype" = k.keytype.map .str := by
  unfold DNSSECKeyInfo.fields
  simp [jlookup_skip, jlookup_at, jlookup_last, jlookup_last_skip]
  cases k.keytype <;> simp

theorem kil_managed (k : DNSSECKeyInfo) : jlookup k.fields "managed" = k.managed.map .bool := by
  unfold DNSSECKeyInfo.fields
  simp [jlookup_skip, jlookup_at, jlookup_last, jlookup_last_skip]

theorem exMapM_asStr (l : List String) : exMapM asStrE (l.map .str) = .ok l := by
  induction l with
  | nil => rfl
  | cons a as ih => simp [exMapM, asStrE, ih]

theorem kiget_dnskey (k : DNSSECKeyInfo) : getOptStr k.fields "dnskey" = .ok k.dnskey := by
  have h := kil_dnskey k
  cases hd : k.dnskey <;> rw [hd] at h <;> simp [getOptStr, h, hd]

theorem kiget_ds (k : DNSSECKeyInfo) : getOptStrList k.fields "ds" = .ok k.ds := by
  have h := kil_ds k
  cases hd : k.ds <;> rw [hd] at h <;> simp [getOptStrList, h, hd, exMapM_asStr]

theorem kiget_flags (k : DNSSECKeyInfo) (hw : k.wf = true) :
    getOptNat (2 ^ 16) k.fields "flags" = .ok k.keyflags := by
  have h := kil_flags k
  cases hd : k.keyflags with
  | none => rw [hd] at h; simp [getOptNat, h, hd]
  | some n =>
    rw [hd] at h
    have hb : n < 2 ^ 16 := by
      simp [DNSSECKeyInfo.wf, hd] at hw
      exact hw
    simp [getOptNat, h, hd]
    omega

theorem kiget_keytype (k : DNSSECKeyInfo) : getOptStr k.fields "keytype" = .ok k.keytype := by
  have h := kil_keytype k
  cases hd : k.keytype <;> rw [hd] at h <;> simp [getOptStr, h, hd]

theorem kiget_managed (k : DNSSECKeyInfo) : getOptBool k.fields "managed" = .ok k.managed := by
  have h := kil_managed k
  cases hd : k.managed <;> rw [hd] at h <;> simp [getOptBool, h, hd]

theorem keyInfo_roundtrip (k : DNSSECKeyInfo) (hw : k.wf = true) :
    DNSSECKeyInfo.fromJson k.toJson = .ok k := by
  show DNSSECKeyInfo.fromJson (.obj k.fields) = .ok k
  simp only [DNSSECKeyInfo.fromJson, kiget_dnskey, kiget_ds, kiget_flags k hw,
    kiget_keytype, kiget_managed]

theorem exMapM_keyInfo (ks : List DNSSECKeyInfo) (hw : ks.all DNSSECKeyInfo.wf = true) :
    exMapM DNSSECKeyInfo.fromJson (ks.map DNSSECKeyInfo.toJson) = .ok ks := by
  induction ks with
  | nil => rfl
  | cons k ks ih =>
    simp only [List.all_cons, Bool.and_eq_true] at hw
    simp [exMapM, keyInfo_roundtrip k hw.1, ih hw.2]

theorem dml_created (d : Domain) : jlookup d.fields "created" = d.created.map .str := by
  unfold Domain.fields
  simp [jlookup_skip, jlookup_at, jlookup_last, jlookup_last_skip]
  cases d.created <;> simp

theorem dml_keys (d : Domain) :
    jlookup d.fields "keys" = d.keys.map fun ks => .arr (ks.map DNSSECKeyInfo.toJson) := by
  unfold Domain.fields
  simp [jlookup_skip, jlookup_at, jlookup_last, jlookup_last_skip]
  cases d.keys <;> simp

theorem dml_minimum_ttl (d : Domain) :
    jlookup d.fields "minimum_ttl" = d.minimum_ttl.map .num := by
  unfold Domain.fields
  simp [jlookup_skip, jlookup_at, jlookup_last, jlookup_last_skip]
  cases d.minimum_ttl <;> simp

theorem dml_name (d : Domain) : jlookup d.fields "name" = d.name.map .str := by
  unfold Domain.fields
  simp [jlookup_skip, jlookup_at, jlookup_last, jlookup_last_skip]
  cases d.name <;> simp

theorem dml_published (d : Domain) : jlookup d.fields "published" = d.published.map .str := by
  unfold Domain.fields
  simp [jlookup_skip, jlookup_at, jlookup_last, jlookup_last_skip]
  cases d.published <;> simp

theorem dml_touched (d : Domain) : jlookup d.fields "touched" = d.touched.map .str := by
  unfold Domain.fields
  simp [jlookup_skip, jlookup_at, jlookup_last, jlookup_last_skip]
  cases d.touched <;> simp

theorem dml_zonefile (d : Domain) : jlookup d.fields "zonefile" = d.zonefile.map .str := by
  unfold Domain.fields
  simp [jlookup_skip, jlookup_at, jlookup_last, jlookup_last_skip]

theorem dget_created (d : Domain) : getOptStr d.fields "created" = .ok d.created := by
  have h := dml_created d
  cases hd : d.created <;> rw [hd] at h <;> simp [getOptStr, h, hd]

theorem dget_keys (d : Domain) (hw : d.wf = true) :
    getOptKeyList d.fields "keys" = .ok d.keys := by
  have h := dml_keys d
  cases hd : d.keys with
  | none => rw [hd] at h; simp [getOptKeyList, h, hd]
  | some ks =>
    rw [hd] at h
    have hk : ks.all DNSSECKeyInfo.wf = true := by
      simp only [Domain.wf, hd, Bool.and_eq_true] at hw
      exact hw.2
    simp [getOptKeyList, h, hd, exMapM_keyInfo ks hk]

theorem dget_minimum_ttl (d : Domain) (hw : d.wf = true) :
    getOptNat (2 ^ 16) d.fields "minimum_ttl" = .ok d.minimum_ttl := by
  have h := dml_minimum_ttl d
  cases hd : d.minimum_ttl with
  | none => rw [hd] at h; simp [getOptNat, h, hd]
  | some n =>
    rw [hd] at h
    have hb : n < 2 ^ 16 := by
      simp only [Domain.wf, hd, Bool.and_eq_true] at hw
      have := hw.1
      simpa using this
    simp [getOptNat, h, hd]
    omega

theorem dget_name (d : Domain) : getOptStr d.fields "name" = .ok d.name := by
  have h := dml_name d
  cases hd : d.name <;> rw [hd] at h <;> simp [getOptStr, h, hd]

theorem dget_published (d : Domain) : getOptStr d.fields "published" = .ok d.published := by
  have h := dml_published d
  cases hd : d.published <;> rw [hd] at h <;> simp [getOptStr, h, hd]

theorem dget_touched (d : Domain) : getOptStr d.fields "touched" = .ok d.touched := by
  have h := dml_touched d
  cases hd : d.touched <;> rw [hd] at h <;> simp [getOptStr, h, hd]

theorem dget_zonefile (d : Domain) : getOptStr d.fields "zonefile" = .ok d.zonefile := by
  have h := dml_zonefile d
  cases hd : d.zonefile <;> rw [hd] at h <;> simp [getOptStr, h, hd]

theorem domain_roundtrip (d : Domain) (hw : d.wf = true) :
    Domain.fromJson d.toJson = .ok d := by
  show Domain.fromJson (.obj d.fields) = .ok d
  simp only [Domain.fromJson, dget_created, dget_keys d hw, dget_minimum_ttl d hw,
    dget_name, dget_published, dget_touched, dget_zonefile]

theorem rrl_created (r : ResourceRecordSet) :
    jlookup r.fields "created" = r.created.map .str := by
  unfold ResourceRecordSet.fields
  simp [jlookup_skip, jlookup_at, jlookup_last, jlookup_last_skip]
  cases r.created <;> simp

theorem rrl_domain (r : ResourceRecordSet) :
    jlookup r.fields "domain" = r.domain.map .str := by
  unfold ResourceRecordSet.fields
  simp [jlookup_skip, jlookup_at, jlookup_last, jlookup_last_skip]
  cases r.domain <;> simp

theorem rrl_subname (r : ResourceRecordSet) :
    jlookup r.fields "subname" = r.subname.map .str := by
  unfold ResourceRecordSet.fields
  simp [jlookup_skip, jlookup_at, jlookup_last, jlookup_last_skip]
  cases r.subname <;> simp

theorem rrl_name (r : ResourceRecordSet) :
    jlookup r.fields "name" = r.name.map .str := by
  unfold ResourceRecordSet.fields
  simp [jlookup_skip, jlookup_at, jlookup_last, jlookup_last_skip]
  cases r.name <;> simp

theorem rrl_type (r : ResourceRecordSet) :
    jlookup r.fields "type" = r.rrset_type.map .str := by
  unfold ResourceRecordSet.fields
  simp [jlookup_skip, jlookup_at, jlookup_last, jlookup_last_skip]
  cases r.rrset_type <;> simp

theorem rrl_records (r : ResourceRecordSet) :
    jlookup r.fields "records" = r.records.map fun l => .arr (l.map .str) := by
  unfold ResourceRecordSet.fields
  simp [jlookup_skip, jlookup_at, jlookup_last, jlookup_last_skip]
  cases r.records <;> simp

theorem rrl_ttl (r : ResourceRecordSet) :
    jlookup r.fields "ttl" = r.ttl.map .num := by
  unfold ResourceRecordSet.fields
  simp [jlookup_skip, jlookup_at, jlookup_last, jlookup_last_skip]
  cases r.ttl <;> simp

theorem rrl_touched (r : ResourceRecordSet) :
    jlookup r.fields "touched" = r.touched.map .str := by
  unfold ResourceRecordSet.fields
  simp [jlookup_skip, jlookup_at, jlookup_last, jlookup_last_skip]

theorem rrget_created (r : ResourceRecordSet) : getOptStr r.fields "created" = .ok r.created := by
  have h := rrl_created r
  cases hd : r.created <;> rw [hd] at h <;> simp [getOptStr, h, hd]

theorem rrget_domain (r : ResourceRecordSet) : getOptStr r.fields "domain" = .ok r.domain := by
  have h := rrl_domain r
  cases hd : r.domain <;> rw [hd] at h <;> simp [getOptStr, h, hd]

theorem rrget_subname (r : ResourceRecordSet) : getOptStr r.fields "subname" = .ok r.subname := by
  have h := rrl_subname r
  cases hd : r.subname <;> rw [hd] at h <;> simp [getOptStr, h, hd]

theorem rrget_name (r : ResourceRecordSet) : getOptStr r.fields "name" = .ok r.name := by
  have h := rrl_name r
  cases hd : r.name <;> rw [hd] at h <;> simp [getOptStr, h, hd]

theorem rrget_type (r : ResourceRecordSet) : getOptStr r.fields "type" = .ok r.rrset_type := by
  have h := rrl_type r
  cases hd : r.rrset_type <;> rw [hd] at h <;> simp [getOptStr, h, hd]

theorem rrget_records (r : ResourceRecordSet) :
    getOptStrList r.fields "records" = .ok r.records := by
  have h := rrl_records r
  cases hd : r.records <;> rw [hd] at h <;> simp [getOptStrList, h, hd, exMapM_asStr]

theorem rrget_ttl (r : ResourceRecordSet) (hw : r.wf = true) :
    getOptNat (2 ^ 64) r.fields "ttl" = .ok r.ttl := by
  have h := rrl_ttl r
  cases hd : r.ttl with
  | none => rw [hd] at h; simp [getOptNat, h, hd]
  | some n =>
    rw [hd] at h
    have hb : n < 2 ^ 64 := by
      simp [ResourceRecordSet.wf, hd] at hw
      exact hw
    simp [getOptNat, h, hd]
    omega

theorem rrget_touched (r : ResourceRecordSet) : getOptStr r.fields "touched" = .ok r.touched := by
  have h := rrl_touched r
  cases hd : r.touched <;> rw [hd] at h <;> simp [getOptStr, h, hd]

theorem rrset_roundtrip (r : ResourceRecordSet) (hw : r.wf = true) :
    ResourceRecordSet.fromJson r.toJson = .ok r := by
  show ResourceRecordSet.fromJson (.obj r.fields) = .ok r
  simp only [ResourceRecordSet.fromJson, rrget_created, rrget_domain, rrget_subname,
    rrget_name, rrget_type, rrget_records, rrget_ttl r hw, rrget_touched]

/-! Key-membership of serialized objects: a key is present exactly when the
corresponding optional field is set, and no `null` value is ever emitted. -/

theorem mem_keys_append_optField {key k : String} (f : α → Json) (o : Option α)
    (rest : List (String × Json)) :
    key ∈ (optField k f o ++ rest).map Prod.fst ↔
      (k = key ∧ o.isSome) ∨ key ∈ rest.map Prod.fst := by
  cases o
  all_goals simp [optField]
  all_goals tauto

theorem mem_keys_optField {key k : String} (f : α → Json) (o : Option α) :
    key ∈ (optField k f o).map Prod.fst ↔ k = key ∧ o.isSome := by
  cases o
  all_goals simp [optField]
  tauto

theorem no_null_optField {k : String} {f : α → Json} (hf : ∀ a, f a ≠ .null) {o : Option α}
    {kv : String × Json} (h : kv ∈ optField k f o) : kv.2 ≠ .null := by
  cases o with
  | none => simp [optField] at h
  | some a =>
    simp [optField] at h
    rw [h]
    exact hf a

theorem rr_keys_iff (r : ResourceRecordSet) (key : String) :
    key ∈ r.fields.map Prod.fst ↔
      ("created" = key ∧ r.created.isSome) ∨ ("domain" = key ∧ r.domain.isSome) ∨
      ("subname" = key ∧ r.subname.isSome) ∨ ("name" = key ∧ r.name.isSome) ∨
      ("type" = key ∧ r.rrset_type.isSome) ∨ ("records" = key ∧ r.records.isSome) ∨
      ("ttl" = key ∧ r.ttl.isSome) ∨ ("touched" = key ∧ r.touched.isSome) := by
  unfold ResourceRecordSet.fields
  rw [mem_keys_append_optField, mem_keys_append_optField, mem_keys_append_optField,
    mem_keys_append_optField, mem_keys_append_optField, mem_keys_append_optField,
    mem_keys_append_optField, mem_keys_optField]

theorem dom_keys_iff (d : Domain) (key : String) :
    key ∈ d.fields.map Prod.fst ↔
      ("created" = key ∧ d.created.isSome) ∨ ("keys" = key ∧ d.keys.isSome) ∨
      ("minimum_ttl" = key ∧ d.minimum_ttl.isSome) ∨ ("name" = key ∧ d.name.isSome) ∨
      ("published" = key ∧ d.published.isSome) ∨ ("touched" = key ∧ d.touched.isSome) ∨
      ("zonefile" = key ∧ d.zonefile.isSome) := by
  unfold Domain.fields
  rw [mem_keys_append_optField, mem_keys_append_optField, mem_keys_append_optField,
    mem_keys_append_optField, mem_keys_append_optField, mem_keys_append_optField,
    mem_keys_optField]

theorem rr_no_null (r : ResourceRecordSet) : ∀ kv ∈ r.fields, kv.2 ≠ Json.null := by
  unfold ResourceRecordSet.fields
  intro kv hkv
  simp only [List.mem_append] at hkv
  rcases hkv with h | h | h | h | h | h | h | h <;>
    exact no_null_optField (by intro a; simp) h

theorem dom_no_null (d : Domain) : ∀ kv ∈ d.fields, kv.2 ≠ Json.null := by
  unfold Domain.fields
  intro kv hkv
  simp only [List.mem_append] at hkv
  rcases hkv with h | h | h | h | h | h | h <;>
    exact no_null_optField (by intro a; simp) h

/-! Parsing of the hand-rolled `create_domain` body.  `cleanChar` singles out
the characters that need no JSON string escaping: for domains made of such
characters the hand-rolled body parses as the intended one-field object; a
domain containing a quote breaks the body (shown at a concrete input in the
claim theorems). -/

def cleanChar (c : Char) : Bool := (c != '"') && (c != '\\') && (32 ≤ c.toNat)

theorem parseStringBody_clean (L : List Char) : ∀ (fuel : Nat) (rest : List Char),
    (∀ c ∈ L, cleanChar c = true) → L.length < fuel →
    parseStringBody fuel (L ++ '"' :: rest) = some (L, rest) := by
  induction L with
  | nil =>
    intro fuel rest _ hf
    match fuel, hf with
    | f + 1, _ => simp [parseStringBody]
  | cons c cs ih =>
    intro fuel rest h hf
    have hc := h c (List.mem_cons_self c cs)
    simp only [cleanChar, Bool.and_eq_true, bne_iff_ne, ne_eq, decide_eq_true_eq] at hc
    have h1 : (c == '"') = false := by simp [hc.1.1]
    have h2 : (c == '\\') = false := by simp [hc.1.2]
    match fuel, hf with
    | f + 1, hf2 =>
      have hlt : cs.length < f := by
        simp only [List.length_cons] at hf2
        omega
      simp only [List.cons_append, parseStringBody, h1, h2, Bool.false_eq_true, if_false,
        List.append_eq, ih f rest (fun x hx => h x (List.mem_cons_of_mem c hx)) hlt]

theorem parseVal_str_sp (fuel : Nat) (L rest : List Char)
    (h : ∀ c ∈ L, cleanChar c = true) (hL : L.length < fuel + 1) :
    parseVal (fuel + 1) (' ' :: ('"' :: (L ++ '"' :: rest))) =
      some (.str (String.mk L), rest) := by
  simp [parseVal, skipWs, jsonWs, parseStringBody_clean L (fuel + 1) rest h hL]

theorem parseObjItems_name (fuel : Nat) (L : List Char)
    (h : ∀ c ∈ L, cleanChar c = true) (hL : L.length < fuel + 1) (hf : 3 ≤ fuel) :
    parseObjItems (fuel + 1 + 1)
      ('"' :: 'n' :: 'a' :: 'm' :: 'e' :: '"' :: ':' :: ' ' :: '"' ::
        (L ++ '"' :: ['\x7d'])) =
      some ([("name", .str (String.mk L))], []) := by
  have hv := parseVal_str_sp fuel L ['\x7d'] h hL
  have hk : parseStringBody (fuel + 1 + 1)
      (['n', 'a', 'm', 'e'] ++ '"' :: (':' :: ' ' :: '"' :: (L ++ '"' :: ['\x7d']))) =
      some (['n', 'a', 'm', 'e'], ':' :: ' ' :: '"' :: (L ++ '"' :: ['\x7d'])) :=
    parseStringBody_clean ['n', 'a', 'm', 'e'] _ _ (by decide) (by simp; omega)
  simp only [List.cons_append, List.nil_append] at hk
  simp [parseObjItems, skipWs, jsonWs, hk, hv]

theorem parseVal_name_obj (fuel : Nat) (L : List Char)
    (h : ∀ c ∈ L, cleanChar c = true) (hL : L.length < fuel + 1) (hf : 3 ≤ fuel) :
    parseVal (fuel + 1 + 1 + 1)
      ('\x7b' :: '"' :: 'n' :: 'a' :: 'm' :: 'e' :: '"' :: ':' :: ' ' :: '"' ::
        (L ++ '"' :: ['\x7d'])) =
      some (.obj [("name", .str (String.mk L))], []) := by
  have hm := parseObjItems_name fuel L h hL hf
  simp [parseVal, skipWs, jsonWs, hm]

theorem parseJson_create_domain_body (d : String)
    (h : ∀ c ∈ d.data, cleanChar c = true) :
    parseJson (create_domain_body d) = some (.obj [("name", .str d)]) := by
  have hdata : (create_domain_body d).data =
      '\x7b' :: '"' :: 'n' :: 'a' :: 'm' :: 'e' :: '"' :: ':' :: ' ' :: '"' ::
        (d.data ++ '"' :: ['\x7d']) := by
    show (("\x7b\"name\": \"" ++ d) ++ "\"\x7d").data = _
    rw [String.data_append, String.data_append, List.append_assoc]
    rfl
  have hlen : (create_domain_body d).length = d.data.length + 12 := by
    have h1 : (create_domain_body d).length = (create_domain_body d).data.length := rfl
    rw [h1, hdata]
    simp
  unfold parseJson
  rw [hdata, hlen]
  have hfuel : d.data.length + 12 + 1 = (d.data.length + 10) + 1 + 1 + 1 := by omega
  rw [hfuel, parseVal_name_obj (d.data.length + 10) d.data h (by omega) (by omega)]
  show (match skipWs [] with
    | [] => some (Json.obj [("name", Json.str (String.mk d.data))])
    | _ :: _ => none) = some (Json.obj [("name", Json.str d)])
  rfl

/-! Claim theorems. -/

/-- Claim C1: the claim states that every 404 response to `get_domain`,
`get_zonefile`, `get_rrset`, `get_rrsets`, `delete_domain` and `delete_rrset`
yields the `NotFound` variant.  In the code only `get_rrset` and `get_rrsets`
have a dedicated 404 arm; `get_domain`, `get_zonefile`, `delete_domain` and
`delete_rrset` push a 404 through the generic client-error arm and return the
`Http` variant, although the repository's own integration test expects
`NotFound` from `get_domain` for a missing domain.  This theorem evaluates
all six dispatches at a 404 response and exhibits the divergence. -/
theorem claim1_notfound_404_evaluation :
    get_domain_handle (.ok ⟨404, ""⟩) = .err (.Http (.status 404)) ∧
    (get_domain_handle (.ok ⟨404, ""⟩)).isNotFound = false ∧
    get_zonefile_handle (.ok ⟨404, ""⟩) = .err (.Http (.status 404)) ∧
    (get_zonefile_handle (.ok ⟨404, ""⟩)).isNotFound = false ∧
    delete_domain_handle (.ok ⟨404, ""⟩) = .err (.Http (.status 404)) ∧
    (delete_domain_handle (.ok ⟨404, ""⟩)).isNotFound = false ∧
    delete_rrset_handle (.ok ⟨404, ""⟩) = .err (.Http (.status 404)) ∧
    (delete_rrset_handle (.ok ⟨404, ""⟩)).isNotFound = false ∧
    (get_rrset_handle "example.org" "www" "A" (.ok ⟨404, ""⟩)).isNotFound = true ∧
    (get_rrsets_handle "example.org" (.ok ⟨404, ""⟩)).isNotFound = true := by
  refine ⟨?_, ?_, ?_, ?_, ?_, ?_, ?_, ?_, ?_, ?_⟩ <;> rfl

/-- Claim C2 fails on the code: the error taxonomy of `DeSecError` has no
`BadRequest` and no `DomainLimit` variant at all, and `create_domain` maps
both a 400 and a 403 response through the generic client-error arm to the
`Http` variant.  Counterexample at concrete 400 and 403 responses. -/
theorem claim2_counterexample :
    create_domain_handle (.ok ⟨400, "domain name invalid"⟩) = .err (.Http (.status 400)) ∧
    (create_domain_handle (.ok ⟨400, "domain name invalid"⟩)).isHttp = true ∧
    create_domain_handle (.ok ⟨403, ""⟩) = .err (.Http (.status 403)) := by
  refine ⟨?_, ?_, ?_⟩ <;> rfl

/-- Claim C2, amended: `create_domain` maps a 400 response and a 403 response
(like every other 4xx/5xx response) to the generic `Http` error carrying the
status; the taxonomy has no `BadRequest` or `DomainLimit` variant. -/
theorem claim2_amended (r : Response) (h : r.status = 400 ∨ r.status = 403) :
    create_domain_handle (.ok r) = .err (.Http (.status r.status)) := by
  apply create_domain_http
  rcases h with h | h <;> omega

theorem claim2_witness :
    create_domain_handle (.ok ⟨403, "quota exceeded"⟩) = .err (.Http (.status 403)) :=
  claim2_amended ⟨403, "quota exceeded"⟩ (Or.inr rfl)

/-- Claim C3: the claim states that `new` returns a `ClientBuild` error for a
token that cannot be encoded into a header value and never panics.  The code
builds the `Authorization` header with `HeaderValue::from_str(..).unwrap()`,
which panics on such a token; the `ClientBuilder` variant is only produced
for a transport-builder failure.  Evaluation at the failing input
`"a\nb"` (control character) exhibits the panic; a well-formed token
constructs the client, and a builder failure is mapped to `ClientBuilder`. -/
theorem claim3_new_panics :
    DeSecClient.new "a\nb" (.ok ()) = .panicked ∧
    headerValueOk "Token a\nb" = false ∧
    DeSecClient.new "secrettoken123" (.ok ()) =
      .ok { api_url := API_URL, token := "secrettoken123" } ∧
    DeSecClient.new "secrettoken123" (.error "tls init failure") =
      .err (.ClientBuilder "tls init failure") := by
  refine ⟨?_, ?_, ?_, ?_⟩ <;> rfl

/-- Claim C4 fails on one point: a `create_rrset_bulk` 400 response whose
body does not decode is reported through `?` and the `#[from]` conversion as
the `Http` variant, not as `Parser`.  Counterexample at a 400 response with
a non-JSON body. -/
theorem claim4_counterexample :
    create_rrset_bulk_handle (.ok ⟨400, "not json"⟩) =
      .err (.Http (.decode "error decoding response body")) ∧
    (create_rrset_bulk_handle (.ok ⟨400, "not json"⟩)).isParser = false := by
  refine ⟨?_, ?_⟩ <;> rfl

/-- Claim C4, amended: for every JSON-decoding operation, a response with
the operation's success status whose body fails to decode yields the
`Parser` variant (distinct from `Http`, no panic, no default value); the one
exception is the bulk-rejection body of `create_rrset_bulk` on a 400
response, whose decode failure surfaces as the `Http` variant. -/
theorem claim4_amended :
    (∀ (r : Response) (m : String), r.status = 200 → decodeAccount r.body = .error m →
      (get_account_info_handle (.ok r)).isParser = true) ∧
    (∀ (r : Response) (m : String), r.status = 201 → decodeDomain r.body = .error m →
      (create_domain_handle (.ok r)).isParser = true) ∧
    (∀ (r : Response) (m : String), r.status = 200 → decodeDomainList r.body = .error m →
      (get_domains_handle (.ok r)).isParser = true) ∧
    (∀ (r : Response) (m : String), r.status = 200 → decodeDomain r.body = .error m →
      (get_domain_handle (.ok r)).isParser = true) ∧
    (∀ (r : Response) (m : String), r.status = 201 → decodeRRSet r.body = .error m →
      (create_rrset_handle (.ok r)).isParser = true) ∧
    (∀ (d : String) (r : Response) (m : String), r.status = 200 →
      decodeRRSetList r.body = .error m →
      (get_rrsets_handle d (.ok r)).isParser = true) ∧
    (∀ (d s t : String) (r : Response) (m : String), r.status = 200 →
      decodeRRSet r.body = .error m →
      (get_rrset_handle d s t (.ok r)).isParser = true) ∧
    (∀ (r : Response) (m : String), r.status = 200 → decodeRRSet r.body = .error m →
      (update_rrset_handle (.ok r)).isParser = true) ∧
    (∀ r : Response, r.status = 400 → parseJson r.body = none →
      (create_rrset_bulk_handle (.ok r)).isHttp = true ∧
      (create_rrset_bulk_handle (.ok r)).isParser = false ∧
      (create_rrset_bulk_handle (.ok r)).isPanic = false) := by
  refine ⟨?_, ?_, ?_, ?_, ?_, ?_, ?_, ?_, ?_⟩
  · intro r m h hd
    rw [get_account_info_parse_err r h m hd]
    rfl
  · intro r m h hd
    rw [create_domain_parse_err r h m hd]
    rfl
  · intro r m h hd
    rw [get_domains_parse_err r h m hd]
    rfl
  · intro r m h hd
    rw [get_domain_parse_err r h m hd]
    rfl
  · intro r m h hd
    rw [create_rrset_parse_err r h m hd]
    rfl
  · intro d r m h hd
    rw [get_rrsets_parse_err d r h m hd]
    rfl
  · intro d s t r m h hd
    rw [get_rrset_parse_err d s t r h m hd]
    rfl
  · intro r m h hd
    rw [update_rrset_parse_err r h m hd]
    rfl
  · intro r h hp
    rw [create_rrset_bulk_400_unparsed r h hp]
    exact ⟨rfl, rfl, rfl⟩

theorem claim4_witness :
    (get_account_info_handle (.ok ⟨200, "\x7b\x7d"⟩)).isParser = true ∧
    (get_domain_handle (.ok ⟨200, ""⟩)).isParser = true ∧
    (create_rrset_bulk_handle (.ok ⟨400, "no"⟩)).isHttp = true :=
  ⟨claim4_amended.1 ⟨200, "\x7b\x7d"⟩ "invalid AccountInformation" rfl rfl,
   claim4_amended.2.2.2.1 ⟨200, ""⟩ "error decoding response body" rfl rfl,
   (claim4_amended.2.2.2.2.2.2.2.2 ⟨400, "no"⟩ rfl rfl).1⟩

/-- Claim C5 fails on one point: a 4xx/5xx status that the operation does
not map specially surfaces as the generic `Http` error, not as
`HttpUnexpectedStatus`.  Counterexample: `create_domain` at a 404 response
(404 is not in its enumerated statuses 201/400/403). -/
theorem claim5_counterexample :
    create_domain_handle (.ok ⟨404, ""⟩) = .err (.Http (.status 404)) ∧
    (create_domain_handle (.ok ⟨404, ""⟩)).isUnexpected = false := by
  refine ⟨?_, ?_⟩ <;> rfl

/-- Claim C5, amended: every response whose status is not the operation's
success status yields an error, never a success result; a status outside
both the success status and the 4xx/5xx error classes surfaces as
`HttpUnexpectedStatus` carrying the full response; a 4xx/5xx status with no
dedicated arm surfaces as the generic `Http` error instead (the dedicated
arms being 404 of `get_rrsets`/`get_rrset` and 400 of `create_rrset_bulk`). -/
theorem claim5_amended :
    (∀ res, (get_account_info_handle res).isOk = true → ∃ r, res = .ok r ∧ r.status = 200) ∧
    (∀ r : Response, ¬(400 ≤ r.status ∧ r.status ≤ 599) → r.status ≠ 200 →
      get_account_info_handle (.ok r) = .err (.HttpUnexpectedStatus r)) ∧
    (∀ r : Response, 400 ≤ r.status ∧ r.status ≤ 599 →
      get_account_info_handle (.ok r) = .err (.Http (.status r.status))) ∧
    (∀ res, (create_domain_handle res).isOk = true → ∃ r, res = .ok r ∧ r.status = 201) ∧
    (∀ r : Response, ¬(400 ≤ r.status ∧ r.status ≤ 599) → r.status ≠ 201 →
      create_domain_handle (.ok r) = .err (.HttpUnexpectedStatus r)) ∧
    (∀ r : Response, 400 ≤ r.status ∧ r.status ≤ 599 →
      create_domain_handle (.ok r) = .err (.Http (.status r.status))) ∧
    (∀ res, (get_domains_handle res).isOk = true → ∃ r, res = .ok r ∧ r.status = 200) ∧
    (∀ r : Response, ¬(400 ≤ r.status ∧ r.status ≤ 599) → r.status ≠ 200 →
      get_domains_handle (.ok r) = .err (.HttpUnexpectedStatus r)) ∧
    (∀ r : Response, 400 ≤ r.status ∧ r.status ≤ 599 →
      get_domains_handle (.ok r) = .err (.Http (.status r.status))) ∧
    (∀ res, (get_domain_handle res).isOk = true → ∃ r, res = .ok r ∧ r.status = 200) ∧
    (∀ r : Response, ¬(400 ≤ r.status ∧ r.status ≤ 599) → r.status ≠ 200 →
      get_domain_handle (.ok r) = .err (.HttpUnexpectedStatus r)) ∧
    (∀ r : Response, 400 ≤ r.status ∧ r.status ≤ 599 →
      get_domain_handle (.ok r) = .err (.Http (.status r.status))) ∧
    (∀ res, (delete_domain_handle res).isOk = true → ∃ r, res = .ok r ∧ r.status = 204) ∧
    (∀ r : Response, ¬(400 ≤ r.status ∧ r.status ≤ 599) → r.status ≠ 204 →
      delete_domain_handle (.ok r) = .err (.HttpUnexpectedStatus r)) ∧
    (∀ r : Response, 400 ≤ r.status ∧ r.status ≤ 599 →
      delete_domain_handle (.ok r) = .err (.Http (.status r.status))) ∧
    (∀ res, (get_zonefile_handle res).isOk = true → ∃ r, res = .ok r ∧ r.status = 200) ∧
    (∀ r : Response, ¬(400 ≤ r.status ∧ r.status ≤ 599) → r.status ≠ 200 →
      get_zonefile_handle (.ok r) = .err (.HttpUnexpectedStatus r)) ∧
    (∀ r : Response, 400 ≤ r.status ∧ r.status ≤ 599 →
      get_zonefile_handle (.ok r) = .err (.Http (.status r.status))) ∧
    (∀ res, (create_rrset_handle res).isOk = true → ∃ r, res = .ok r ∧ r.status = 201) ∧
    (∀ r : Response, ¬(400 ≤ r.status ∧ r.status ≤ 599) → r.status ≠ 201 →
      create_rrset_handle (.ok r) = .err (.HttpUnexpectedStatus r)) ∧
    (∀ r : Response, 400 ≤ r.status ∧ r.status ≤ 599 →
      create_rrset_handle (.ok r) = .err (.Http (.status r.status))) ∧
    (∀ res, (create_rrset_bulk_handle res).isOk = true → ∃ r, res = .ok r ∧ r.status = 201) ∧
    (∀ r : Response, ¬(400 ≤ r.status ∧ r.status ≤ 599) → r.status ≠ 201 →
      create_rrset_bulk_handle (.ok r) = .err (.HttpUnexpectedStatus r)) ∧
    (∀ r : Response, (400 ≤ r.status ∧ r.status ≤ 599) → r.status ≠ 400 →
      create_rrset_bulk_handle (.ok r) = .err (.Http (.status r.status))) ∧
    (∀ d res, (get_rrsets_handle d res).isOk = true → ∃ r, res = .ok r ∧ r.status = 200) ∧
    (∀ (d : String) (r : Response), ¬(400 ≤ r.status ∧ r.status ≤ 599) → r.status ≠ 200 →
      get_rrsets_handle d (.ok r) = .err (.HttpUnexpectedStatus r)) ∧
    (∀ (d : String) (r : Response), (400 ≤ r.status ∧ r.status ≤ 599) → r.status ≠ 404 →
      get_rrsets_handle d (.ok r) = .err (.Http (.status r.status))) ∧
    (∀ d s t res, (get_rrset_handle d s t res).isOk = true →
      ∃ r, res = .ok r ∧ r.status = 200) ∧
    (∀ (d s t : String) (r : Response), ¬(400 ≤ r.status ∧ r.status ≤ 599) →
      r.status ≠ 200 → get_rrset_handle d s t (.ok r) = .err (.HttpUnexpectedStatus r)) ∧
    (∀ (d s t : String) (r : Response), (400 ≤ r.status ∧ r.status ≤ 599) → r.status ≠ 404 →
      get_rrset_handle d s t (.ok r) = .err (.Http (.status r.status))) ∧
    (∀ res, (update_rrset_handle res).isOk = true → ∃ r, res = .ok r ∧ r.status = 200) ∧
    (∀ r : Response, ¬(400 ≤ r.status ∧ r.status ≤ 599) → r.status ≠ 200 →
      update_rrset_handle (.ok r) = .err (.HttpUnexpectedStatus r)) ∧
    (∀ r : Response, 400 ≤ r.status ∧ r.status ≤ 599 →
      update_rrset_handle (.ok r) = .err (.Http (.status r.status))) ∧
    (∀ res, (delete_rrset_handle res).isOk = true → ∃ r, res = .ok r ∧ r.status = 204) ∧
    (∀ r : Response, ¬(400 ≤ r.status ∧ r.status ≤ 599) → r.status ≠ 204 →
      delete_rrset_handle (.ok r) = .err (.HttpUnexpectedStatus r)) ∧
    (∀ r : Response, 400 ≤ r.status ∧ r.status ≤ 599 →
      delete_rrset_handle (.ok r) = .err (.Http (.status r.status))) :=
  ⟨get_account_info_ok_status, get_account_info_unexp, get_account_info_http,
   create_domain_ok_status, create_domain_unexp, create_domain_http,
   get_domains_ok_status, get_domains_unexp, get_domains_http,
   get_domain_ok_status, get_domain_unexp, get_domain_http,
   delete_domain_ok_status, delete_domain_unexp, delete_domain_http,
   get_zonefile_ok_status, get_zonefile_unexp, get_zonefile_http,
   create_rrset_ok_status, create_rrset_unexp, create_rrset_http,
   create_rrset_bulk_ok_status, create_rrset_bulk_unexp,
   fun r h h400 => create_rrset_bulk_http r h h400,
   fun d res h => get_rrsets_ok_status d res h,
   fun d r h hs => get_rrsets_unexp d r h hs,
   fun d r h h404 => get_rrsets_http d r h h404,
   fun d s t res h => get_rrset_ok_status d s t res h,
   fun d s t r h hs => get_rrset_unexp d s t r h hs,
   fun d s t r h h404 => get_rrset_http d s t r h h404,
   update_rrset_ok_status, update_rrset_unexp, update_rrset_http,
   delete_rrset_ok_status, delete_rrset_unexp, delete_rrset_http⟩

theorem claim5_witness :
    get_domain_handle (.ok ⟨302, "moved"⟩) =
      .err (.HttpUnexpectedStatus ⟨302, "moved"⟩) ∧
    update_rrset_handle (.ok ⟨418, ""⟩) = .err (.Http (.status 418)) ∧
    (∃ r, (.ok ⟨204, ""⟩ : Except ReqError Response) = .ok r ∧ r.status = 204) :=
  ⟨claim5_amended.2.2.2.2.2.2.2.2.2.2.1 ⟨302, "moved"⟩ (by simp) (by simp),
   claim5_amended.2.2.2.2.2.2.2.2.2.2.2.2.2.2.2.2.2.2.2.2.2.2.2.2.2.2.2.2.2.2.2.2.1
     ⟨418, ""⟩ (by simp),
   claim5_amended.2.2.2.2.2.2.2.2.2.2.2.2.1 (.ok ⟨204, ""⟩) rfl⟩

/-- Claim C6: serializing a `Domain` or `ResourceRecordSet` emits a key
exactly for each optional field that is set (absent fields get no key and
never a `null` placeholder), so a PATCH body built from a partial record
contains exactly the fields the caller set; and decoding a serialized value
back gives the same value, so re-serializing omits the same fields
(round-trip).  The well-formedness hypotheses state the `u16`/`u64` bounds
that the Rust field types carry by construction. -/
theorem claim6_serialization_omits_and_roundtrips :
    (∀ d : Domain,
      (∀ key, key ∈ d.fields.map Prod.fst ↔
        ("created" = key ∧ d.created.isSome) ∨ ("keys" = key ∧ d.keys.isSome) ∨
        ("minimum_ttl" = key ∧ d.minimum_ttl.isSome) ∨ ("name" = key ∧ d.name.isSome) ∨
        ("published" = key ∧ d.published.isSome) ∨ ("touched" = key ∧ d.touched.isSome) ∨
        ("zonefile" = key ∧ d.zonefile.isSome)) ∧
      (∀ kv ∈ d.fields, kv.2 ≠ Json.null) ∧
      (d.wf = true → Domain.fromJson d.toJson = .ok d ∧
        ∃ d', Domain.fromJson d.toJson = .ok d' ∧ d'.toJson = d.toJson)) ∧
    (∀ r : ResourceRecordSet,
      (∀ key, key ∈ r.fields.map Prod.fst ↔
        ("created" = key ∧ r.created.isSome) ∨ ("domain" = key ∧ r.domain.isSome) ∨
        ("subname" = key ∧ r.subname.isSome) ∨ ("name" = key ∧ r.name.isSome) ∨
        ("type" = key ∧ r.rrset_type.isSome) ∨ ("records" = key ∧ r.records.isSome) ∨
        ("ttl" = key ∧ r.ttl.isSome) ∨ ("touched" = key ∧ r.touched.isSome)) ∧
      (∀ kv ∈ r.fields, kv.2 ≠ Json.null) ∧
      (r.wf = true → ResourceRecordSet.fromJson r.toJson = .ok r ∧
        ∃ r', ResourceRecordSet.fromJson r.toJson = .ok r' ∧ r'.toJson = r.toJson)) :=
  ⟨fun d => ⟨dom_keys_iff d, dom_no_null d,
    fun hw => ⟨domain_roundtrip d hw, d, domain_roundtrip d hw, rfl⟩⟩,
   fun r => ⟨rr_keys_iff r, rr_no_null r,
    fun hw => ⟨rrset_roundtrip r hw, r, rrset_roundtrip r hw, rfl⟩⟩⟩

theorem claim6_witness :
    ResourceRecordSet.fromJson
        (ResourceRecordSet.toJson
          ⟨none, none, some "www", none, some "A", some ["8.8.8.8"], some 3600, none⟩) =
      .ok ⟨none, none, some "www", none, some "A", some ["8.8.8.8"], some 3600, none⟩ ∧
    Domain.fromJson
        (Domain.toJson ⟨none, none, none, some "example.org", none, none, none⟩) =
      .ok ⟨none, none, none, some "example.org", none, none, none⟩ :=
  ⟨((claim6_serialization_omits_and_roundtrips.2
      ⟨none, none, some "www", none, some "A", some ["8.8.8.8"], some 3600, none⟩).2.2
      (by rfl)).1,
   ((claim6_serialization_omits_and_roundtrips.1
      ⟨none, none, none, some "example.org", none, none, none⟩).2.2 (by rfl)).1⟩

/-- Claim C7: `create_rrset_bulk` returns unit success exactly for a 201
response, and a 400 response whose body parses as a JSON value is returned
as the `HttpBulk` variant carrying that parsed value (the structured
per-item error array), not flattened into a string. -/
theorem claim7_bulk_dispatch :
    (∀ r : Response, r.status = 201 → create_rrset_bulk_handle (.ok r) = .ok ()) ∧
    (∀ res, (create_rrset_bulk_handle res).isOk = true →
      ∃ r, res = .ok r ∧ r.status = 201) ∧
    (∀ (r : Response) (v : Json), r.status = 400 → parseJson r.body = some v →
      create_rrset_bulk_handle (.ok r) = .err (.HttpBulk v)) :=
  ⟨create_rrset_bulk_ok, create_rrset_bulk_ok_status,
   fun r v h hv => create_rrset_bulk_400_parsed r h v hv⟩

theorem claim7_witness :
    create_rrset_bulk_handle (.ok ⟨201, ""⟩) = .ok () ∧
    create_rrset_bulk_handle (.ok ⟨400, "[\"bad item\"]"⟩) =
      .err (.HttpBulk (.arr [.str "bad item"])) :=
  ⟨claim7_bulk_dispatch.1 ⟨201, ""⟩ rfl,
   claim7_bulk_dispatch.2.2 ⟨400, "[\"bad item\"]"⟩ (.arr [.str "bad item"]) rfl rfl⟩

/-- Claim C8 fails on the code: the `create_domain` body is built by
hand-rolled `format!` interpolation, not by the JSON library, so a domain
containing a double quote produces a body that is not valid JSON at all.
Counterexample at the domain `a"b`. -/
theorem claim8_counterexample :
    parseJson (create_domain_body "a\"b") = none := by rfl

/-- Claim C8, amended: the `create_domain` body is the hand-rolled template
open-brace `"name": "` domain `"` close-brace; for every domain containing
no double quote, no backslash and no control character this body is valid
JSON and decodes to exactly the object with the single field `name` holding
the given domain string; for other domains the body can be malformed. -/
theorem claim8_amended (d : String) (h : ∀ c ∈ d.data, cleanChar c = true) :
    parseJson (create_domain_body d) = some (.obj [("name", .str d)]) :=
  parseJson_create_domain_body d h

theorem claim8_witness :
    parseJson (create_domain_body "example.org") =
      some (.obj [("name", .str "example.org")]) :=
  claim8_amended "example.org" (by decide)

/-- Claim C9: under the guard `is_client_error || is_server_error`, reqwest's
`error_for_status().err()` always yields a value, so the `unwrap()` in the
shared error arm cannot panic; accordingly no dispatch function ever
produces the panic outcome, for any response or transport error. -/
theorem claim9_unwrap_never_panics :
    (∀ r : Response, (is_client_error r.status || is_server_error r.status) = true →
      (errorForStatusErr r).isSome = true) ∧
    (∀ res, (get_account_info_handle res).isPanic = false) ∧
    (∀ res, (create_domain_handle res).isPanic = false) ∧
    (∀ res, (get_domains_handle res).isPanic = false) ∧
    (∀ res, (get_domain_handle res).isPanic = false) ∧
    (∀ res, (delete_domain_handle res).isPanic = false) ∧
    (∀ res, (get_zonefile_handle res).isPanic = false) ∧
    (∀ res, (create_rrset_handle res).isPanic = false) ∧
    (∀ res, (create_rrset_bulk_handle res).isPanic = false) ∧
    (∀ d res, (get_rrsets_handle d res).isPanic = false) ∧
    (∀ d s t res, (get_rrset_handle d s t res).isPanic = false) ∧
    (∀ res, (update_rrset_handle res).isPanic = false) ∧
    (∀ res, (delete_rrset_handle res).isPanic = false) := by
  refine ⟨?_, get_account_info_no_panic, create_domain_no_panic, get_domains_no_panic,
    get_domain_no_panic, delete_domain_no_panic, get_zonefile_no_panic,
    create_rrset_no_panic, create_rrset_bulk_no_panic, get_rrsets_no_panic,
    get_rrset_no_panic, update_rrset_no_panic, delete_rrset_no_panic⟩
  intro r h
  simp [errorForStatusErr, h]

theorem claim9_witness :
    (errorForStatusErr ⟨404, "not found"⟩).isSome = true ∧
    (get_account_info_handle (.ok ⟨500, "oops"⟩)).isPanic = false :=
  ⟨claim9_unwrap_never_panics.1 ⟨404, "not found"⟩ rfl,
   claim9_unwrap_never_panics.2.1 (.ok ⟨500, "oops"⟩)⟩

/-- Claim C10: the URL requested by `get_rrset` (and likewise `update_rrset`
and `delete_rrset`) is the plain concatenation of the api url with
`/domains/`, the domain, `/rrsets/`, the subname, `/`, the type and `/` —
no percent-encoding of the arguments — so inputs containing `/` change the
path structure: distinct (subname, type) pairs can produce the same URL. -/
theorem claim10_rrset_urls :
    (∀ api d s t : String,
      get_rrset_url api d s t =
        api ++ "/domains/" ++ d ++ "/rrsets/" ++ s ++ "/" ++ t ++ "/" ∧
      update_rrset_url api d s t =
        api ++ "/domains/" ++ d ++ "/rrsets/" ++ s ++ "/" ++ t ++ "/" ∧
      delete_rrset_url api d s t =
        api ++ "/domains/" ++ d ++ "/rrsets/" ++ s ++ "/" ++ t ++ "/") ∧
    get_rrset_url API_URL "example.org" "a" "b/A" =
      get_rrset_url API_URL "example.org" "a/b" "A" ∧
    ("a", "b/A") ≠ ("a/b", "A") := by
  refine ⟨?_, by decide, by decide⟩
  intro api d s t
  refine ⟨?_, ?_, ?_⟩ <;>
    simp [get_rrset_url, update_rrset_url, delete_rrset_url, request_url, rrset_endpoint,
      String.append_assoc]
